import Mathlib

/-!
# Shader objects of libGLESv2 (`src/libGLESv2/Shader.cpp`)

A shallow embedding of `gl::Shader`, `gl::VertexShader` and `gl::FragmentShader`.

Conventions of the embedding.

* `std::string` and C strings are `String` (a C string is its contents up to the
  terminating NUL).
* `unsigned int` / `GLuint` / `GLenum` are `Nat` reduced modulo `2 ^ 32` where the code
  does arithmetic on them; `int` is `Int`, brought back into the 32-bit range by `toInt32`
  after every addition.
* `std::vector` is `List`; `std::map<std::string, unsigned int>` is a finite lookup
  function `String → Option Nat`.
* Functions and constants that `Shader.cpp` uses but that live in other translation units
  (`VariableRegisterCount`, `VariableSortOrder`, `GL_STRUCT_ANGLEX`, the translator entry
  points `ShCompile` / `ShGet...`, `std::sort`, `ResourceManager::deleteShader`) are
  parameters of the definitions that call them.
-/

/-! ## Machine integers -/

/-- Value of a mathematical integer stored in a 32-bit two's-complement `int`. -/
def toInt32 (x : Int) : Int := (x + 2 ^ 31) % 2 ^ 32 - 2 ^ 31

/-- Value of a natural number stored in a 32-bit `unsigned int`. -/
def toUInt32 (x : Nat) : Nat := x % 2 ^ 32

/-- The decrement `--` of a 32-bit `unsigned int`: `x - 1` modulo `2 ^ 32`, so that 0
wraps around to `2 ^ 32 - 1`. -/
def decUInt32 (x : Nat) : Nat := if x = 0 then 4294967295 else x - 1

namespace rx

/-- The enumeration `rx::D3DWorkaroundType` returned by `Shader::getD3DWorkarounds`. -/
inductive D3DWorkaroundType
  | ANGLE_D3D_WORKAROUND_NONE
  | ANGLE_D3D_WORKAROUND_SKIP_OPTIMIZATION
  | ANGLE_D3D_WORKAROUND_MAX_OPTIMIZATION
  deriving DecidableEq

end rx

namespace gl

abbrev GLenum := Nat
abbrev GLuint := Nat

/-- The members of `sh::ShaderVariable` (and of `sh::Uniform`, `sh::Attribute`,
`sh::Varying`, which extend it) that `Shader.cpp` reads. -/
structure ShaderVariable where
  name : String
  type : GLenum
  arraySize : Nat
  deriving DecidableEq

/-- The member of `sh::InterfaceBlock` that `Shader.cpp` reads. -/
structure InterfaceBlock where
  name : String
  deriving DecidableEq

/-- A `gl::PackedVarying`: an `sh::Varying` wrapped for register assignment. -/
structure PackedVarying where
  name : String
  type : GLenum
  arraySize : Nat
  deriving DecidableEq

/-- The constructor `PackedVarying(const sh::Varying &)` used by `parseVaryings`. -/
def PackedVarying.ofVarying (v : ShaderVariable) : PackedVarying :=
  { name := v.name, type := v.type, arraySize := v.arraySize }

/-- A `std::map<std::string, unsigned int>`. -/
abbrev RegisterMap := String → Option Nat

/-- The map statement `m[key] = index`. -/
def RegisterMap.assign (m : RegisterMap) (key : String) (index : Nat) : RegisterMap :=
  fun n => if n = key then some index else m n

/-- The data members of `gl::Shader`. -/
structure Shader where
  mHandle : GLuint
  mSource : String
  mHlsl : String
  mInfoLog : String
  mVaryings : List PackedVarying
  mUsesMultipleRenderTargets : Bool
  mUsesFragColor : Bool
  mUsesFragData : Bool
  mUsesFragCoord : Bool
  mUsesFrontFacing : Bool
  mUsesPointSize : Bool
  mUsesPointCoord : Bool
  mUsesDepthRange : Bool
  mUsesFragDepth : Bool
  mShaderVersion : Int
  mUsesDiscardRewriting : Bool
  mUsesNestedBreak : Bool
  mActiveUniforms : List ShaderVariable
  mActiveInterfaceBlocks : List InterfaceBlock
  mUniformRegisterMap : RegisterMap
  mInterfaceBlockRegisterMap : RegisterMap
  mRefCount : Nat
  mDeleteStatus : Bool

/-- A `gl::VertexShader`: a `Shader` with its active attributes. -/
structure VertexShader extends Shader where
  mActiveAttributes : List ShaderVariable

/-- A `gl::FragmentShader`: a `Shader` with its active output variables. -/
structure FragmentShader extends Shader where
  mActiveOutputVariables : List ShaderVariable

/-! ## Workaround selection -/

/-- `Shader::getD3DWorkarounds` (Shader.cpp 431-449). -/
def Shader.getD3DWorkarounds (self : Shader) : rx.D3DWorkaroundType :=
  if self.mUsesDiscardRewriting then
    rx.D3DWorkaroundType.ANGLE_D3D_WORKAROUND_SKIP_OPTIMIZATION
  else if self.mUsesNestedBreak then
    rx.D3DWorkaroundType.ANGLE_D3D_WORKAROUND_MAX_OPTIMIZATION
  else
    rx.D3DWorkaroundType.ANGLE_D3D_WORKAROUND_NONE

/-! ## Attribute semantic index -/

/-- The `for` loop of `VertexShader::getSemanticIndex` together with the `return -1` that
follows it: `attributes` is the part of `mActiveAttributes` not yet visited and
`semanticIndex` the running `int`. `VariableRegisterCount` is the function of
`common/utilities` the loop calls. -/
def getSemanticIndexLoop (VariableRegisterCount : GLenum → Int) (attributeName : String) :
    List ShaderVariable → Int → Int
  | [], _ => -1
  | attr :: rest, semanticIndex =>
    if attr.name = attributeName then
      semanticIndex
    else
      getSemanticIndexLoop VariableRegisterCount attributeName rest
        (toInt32 (semanticIndex + VariableRegisterCount attr.type))

/-- `VertexShader::getSemanticIndex` (Shader.cpp 509-528). -/
def VertexShader.getSemanticIndex (VariableRegisterCount : GLenum → Int)
    (self : VertexShader) (attributeName : String) : Int :=
  if attributeName ≠ "" then
    getSemanticIndexLoop VariableRegisterCount attributeName self.mActiveAttributes 0
  else
    -1

/-! ## Construction and reset -/

/-- `Shader::uncompile` (Shader.cpp 287-311): clears what `compileToHLSL` and
`parseVaryings` set. The two register maps are not among the members it clears. -/
def Shader.uncompile (self : Shader) : Shader :=
  { self with
    mHlsl := ""
    mInfoLog := ""
    mVaryings := []
    mUsesMultipleRenderTargets := false
    mUsesFragColor := false
    mUsesFragData := false
    mUsesFragCoord := false
    mUsesFrontFacing := false
    mUsesPointSize := false
    mUsesPointCoord := false
    mUsesDepthRange := false
    mUsesFragDepth := false
    mShaderVersion := 100
    mUsesDiscardRewriting := false
    mUsesNestedBreak := false
    mActiveUniforms := []
    mActiveInterfaceBlocks := [] }

/-- The constructor `Shader::Shader` (Shader.cpp 33-42): strings, vectors and maps start
empty, `uncompile()` gives the compile-derived members their defaults, then the body sets
`mRefCount`, `mDeleteStatus` and `mShaderVersion`. -/
def Shader.new (handle : GLuint) : Shader :=
  { Shader.uncompile
      { mHandle := handle
        mSource := ""
        mHlsl := ""
        mInfoLog := ""
        mVaryings := []
        mUsesMultipleRenderTargets := false
        mUsesFragColor := false
        mUsesFragData := false
        mUsesFragCoord := false
        mUsesFrontFacing := false
        mUsesPointSize := false
        mUsesPointCoord := false
        mUsesDepthRange := false
        mUsesFragDepth := false
        mShaderVersion := 100
        mUsesDiscardRewriting := false
        mUsesNestedBreak := false
        mActiveUniforms := []
        mActiveInterfaceBlocks := []
        mUniformRegisterMap := fun _ => none
        mInterfaceBlockRegisterMap := fun _ => none
        mRefCount := 0
        mDeleteStatus := false } with
    mRefCount := 0
    mDeleteStatus := false
    mShaderVersion := 100 }

/-- The constructor `VertexShader::VertexShader` (Shader.cpp 478-481). -/
def VertexShader.new (handle : GLuint) : VertexShader :=
  { toShader := Shader.new handle, mActiveAttributes := [] }

/-- The constructor `FragmentShader::FragmentShader` (Shader.cpp 539-542). -/
def FragmentShader.new (handle : GLuint) : FragmentShader :=
  { toShader := Shader.new handle, mActiveOutputVariables := [] }

/-! ## Varying packing order -/

/-- `Shader::compareVarying` (Shader.cpp 452-471): true if varying `x` has a higher
priority in packing than `y`. The constant `GL_STRUCT_ANGLEX` and the table
`gl::VariableSortOrder` are defined outside `Shader.cpp`. -/
def Shader.compareVarying (GL_STRUCT_ANGLEX : GLenum) (VariableSortOrder : GLenum → Int)
    (x y : PackedVarying) : Bool :=
  if x.type = y.type then
    decide (x.arraySize > y.arraySize)
  else if x.type = GL_STRUCT_ANGLEX then
    false
  else if y.type = GL_STRUCT_ANGLEX then
    true
  else
    decide (VariableSortOrder x.type ≤ VariableSortOrder y.type)

/-- The state `std::sort(first, last, comp)` has to establish: `sorted` holds the elements
of `range` rearranged, and no element compares before one that precedes it. -/
def StdSortPostcondition {α : Type} (comp : α → α → Bool) (range sorted : List α) : Prop :=
  sorted.Perm range ∧ sorted.Pairwise (fun a b => comp b a = false)

/-- Insertion of `val` into the sorted front of a range as `std::sort` implementations do
it on short ranges (the loop body of a guarded insertion sort): `val` goes to the very
front when it compares before the first element, otherwise it moves back over the
elements it compares before. This is library behaviour, not part of `Shader.cpp`; it
serves as a concrete value for the `stdSort` parameter. -/
def linearInsert {α : Type} (comp : α → α → Bool) (val : α) (front : List α) : List α :=
  match front with
  | [] => [val]
  | first :: _ =>
    if comp val first then
      val :: front
    else
      front.take (front.length - (front.reverse.takeWhile (fun e => comp val e)).length) ++
        val :: (front.reverse.takeWhile (fun e => comp val e)).reverse

/-- Insertion sort built on `linearInsert`. -/
def insertionSort {α : Type} (comp : α → α → Bool) (range : List α) : List α :=
  range.foldl (fun front val => linearInsert comp val front) []

/-! ## Source assignment and compilation -/

/-- `Shader::setSource` (Shader.cpp 53-63): the first `count` strings are streamed one
after the other into `mSource`; the `length` argument is not read. -/
def Shader.setSource (self : Shader) (count : Int) (string : List String)
    (_length : List Int) : Shader :=
  { self with mSource := String.join (string.take count.toNat) }

/-- `Shader::isCompiled` (Shader.cpp 153-156). -/
def Shader.isCompiled (self : Shader) : Bool :=
  decide (self.mHlsl ≠ "")

/-- `Shader::getHLSL` (Shader.cpp 158-161). -/
def Shader.getHLSL (self : Shader) : String :=
  self.mHlsl

/-- The test `text.find(marker) != std::string::npos`. -/
def stringContains (text marker : String) : Bool :=
  text.data.tails.any (fun rest => marker.data.isPrefixOf rest)

/-- What the translator (`ShCompile` and the `ShGet...` queries on the compiler handle)
answers during one call of `compileToHLSL`. A register query that returns `false` is
`none`. -/
structure Translation where
  result : Int
  shaderVersion : Nat
  objectCode : String
  infoLog : String
  uniforms : List ShaderVariable
  uniformRegister : String → Option Nat
  interfaceBlocks : List InterfaceBlock
  interfaceBlockRegister : String → Option Nat
  varyings : List ShaderVariable
  attributes : List ShaderVariable
  outputVariables : List ShaderVariable

/-- Body of the `while` loop of the `_DEBUG` branch of `compileToHLSL` after its first
`"// "`: the source is copied, and every line break is followed by a new `"// "`. -/
def commentedSource : List Char → List Char
  | [] => []
  | c :: rest =>
    if c = '\n' then '\n' :: '/' :: '/' :: ' ' :: commentedSource rest
    else c :: commentedSource rest

/-- The text the `_DEBUG` branch streams ahead of the object code (Shader.cpp 367-381). -/
def debugListing (source : String) : String :=
  "// GLSL\n" ++ "//\n" ++ "// " ++ String.mk (commentedSource source.data) ++ "\n\n"

/-- The `index` the register loops store: initialised to `-1` as `unsigned int` and
overwritten by a query that succeeds (the `ASSERT` on the query is compiled out of release
builds). -/
def registerIndex (query : String → Option Nat) (name : String) : Nat :=
  (query name).getD 4294967295

/-- The loops `map[variable.name] = index` over the active uniforms and over the active
interface blocks (Shader.cpp 392-402 and 406-416). -/
def fillRegisterMap (query : String → Option Nat) (names : List String)
    (map : RegisterMap) : RegisterMap :=
  names.foldl (fun m name => m.assign name (registerIndex query name)) map

/-- `Shader::compileToHLSL` (Shader.cpp 313-429). `debugBuild` tells whether `_DEBUG` is
defined, `clientVersion` is `mRenderer->getCurrentClientVersion()`; what is sent to the
translator (the source, with a temporary file path when `perfActive()`) is not part of the
state, its answers are `translation`. -/
def Shader.compileToHLSL (debugBuild : Bool) (clientVersion : Int) (self : Shader)
    (translation : Translation) : Shader :=
  let self := { self with mShaderVersion := toInt32 translation.shaderVersion }
  if translation.shaderVersion = 300 ∧ clientVersion < 3 then
    { self with mInfoLog := "GLSL ES 3.00 is not supported by OpenGL ES 2.0 contexts" }
  else if translation.result ≠ 0 then
    { self with
      mHlsl :=
        if debugBuild then debugListing self.mSource ++ translation.objectCode
        else translation.objectCode
      mActiveUniforms := translation.uniforms
      mUniformRegisterMap :=
        fillRegisterMap translation.uniformRegister
          (translation.uniforms.map (fun uniform => uniform.name)) self.mUniformRegisterMap
      mActiveInterfaceBlocks := translation.interfaceBlocks
      mInterfaceBlockRegisterMap :=
        fillRegisterMap translation.interfaceBlockRegister
          (translation.interfaceBlocks.map (fun block => block.name))
          self.mInterfaceBlockRegisterMap }
  else
    { self with mInfoLog := translation.infoLog }

/-- `Shader::parseVaryings` (Shader.cpp 252-276). -/
def Shader.parseVaryings (self : Shader) (translation : Translation) : Shader :=
  if self.mHlsl ≠ "" then
    { self with
      mVaryings := self.mVaryings ++ translation.varyings.map PackedVarying.ofVarying
      mUsesMultipleRenderTargets := stringContains self.mHlsl "GL_USES_MRT"
      mUsesFragColor := stringContains self.mHlsl "GL_USES_FRAG_COLOR"
      mUsesFragData := stringContains self.mHlsl "GL_USES_FRAG_DATA"
      mUsesFragCoord := stringContains self.mHlsl "GL_USES_FRAG_COORD"
      mUsesFrontFacing := stringContains self.mHlsl "GL_USES_FRONT_FACING"
      mUsesPointSize := stringContains self.mHlsl "GL_USES_POINT_SIZE"
      mUsesPointCoord := stringContains self.mHlsl "GL_USES_POINT_COORD"
      mUsesDepthRange := stringContains self.mHlsl "GL_USES_DEPTH_RANGE"
      mUsesFragDepth := stringContains self.mHlsl "GL_USES_FRAG_DEPTH"
      mUsesDiscardRewriting := stringContains self.mHlsl "ANGLE_USES_DISCARD_REWRITING"
      mUsesNestedBreak := stringContains self.mHlsl "ANGLE_USES_NESTED_BREAK" }
  else
    self

/-- `VertexShader::uncompile` (Shader.cpp 492-498). -/
def VertexShader.uncompile (self : VertexShader) : VertexShader :=
  { toShader := self.toShader.uncompile, mActiveAttributes := [] }

/-- `VertexShader::parseAttributes` (Shader.cpp 530-537). -/
def VertexShader.parseAttributes (self : VertexShader) (translation : Translation) :
    VertexShader :=
  if self.toShader.getHLSL ≠ "" then
    { self with mActiveAttributes := translation.attributes }
  else
    self

/-- `VertexShader::compile` (Shader.cpp 500-507). -/
def VertexShader.compile (debugBuild : Bool) (clientVersion : Int) (self : VertexShader)
    (translation : Translation) : VertexShader :=
  let self := self.uncompile
  let self := { self with
    toShader := self.toShader.compileToHLSL debugBuild clientVersion translation }
  let self := self.parseAttributes translation
  { self with toShader := self.toShader.parseVaryings translation }

/-- `FragmentShader::uncompile` (Shader.cpp 568-573). -/
def FragmentShader.uncompile (self : FragmentShader) : FragmentShader :=
  { toShader := self.toShader.uncompile, mActiveOutputVariables := [] }

/-- `FragmentShader::compile` (Shader.cpp 553-566). `stdSort comp range` is what the
call `std::sort(range.begin(), range.end(), comp)` leaves in the range. -/
def FragmentShader.compile
    (stdSort : (PackedVarying → PackedVarying → Bool) → List PackedVarying →
      List PackedVarying)
    (GL_STRUCT_ANGLEX : GLenum) (VariableSortOrder : GLenum → Int)
    (debugBuild : Bool) (clientVersion : Int) (self : FragmentShader)
    (translation : Translation) : FragmentShader :=
  let self := self.uncompile
  let self := { self with
    toShader := self.toShader.compileToHLSL debugBuild clientVersion translation }
  let self := { self with toShader := self.toShader.parseVaryings translation }
  let self := { self with
    toShader := { self.toShader with
      mVaryings :=
        stdSort (Shader.compareVarying GL_STRUCT_ANGLEX VariableSortOrder)
          self.toShader.mVaryings } }
  if self.toShader.getHLSL ≠ "" then
    { self with mActiveOutputVariables := translation.outputVariables }
  else
    self

/-- A call on a shader object: source assignment or compilation, with the values the
environment supplies during the call. -/
inductive ShaderCall
  | setSource (count : Int) (string : List String) (length : List Int)
  | compile (clientVersion : Int) (translation : Translation)

/-- Whether a compile attempt succeeds: the version gate does not fire and the translator
reports success. -/
def compileSucceeds (clientVersion : Int) (translation : Translation) : Bool :=
  decide (¬ (translation.shaderVersion = 300 ∧ clientVersion < 3) ∧ translation.result ≠ 0)

/-- One call on a vertex shader. -/
def VertexShader.call (debugBuild : Bool) (self : VertexShader) : ShaderCall → VertexShader
  | ShaderCall.setSource count string length =>
    { self with toShader := self.toShader.setSource count string length }
  | ShaderCall.compile clientVersion translation =>
    self.compile debugBuild clientVersion translation

/-- A sequence of calls on a vertex shader. -/
def VertexShader.run (debugBuild : Bool) (self : VertexShader) (calls : List ShaderCall) :
    VertexShader :=
  calls.foldl (VertexShader.call debugBuild) self

/-- One call on a fragment shader. -/
def FragmentShader.call
    (stdSort : (PackedVarying → PackedVarying → Bool) → List PackedVarying →
      List PackedVarying)
    (GL_STRUCT_ANGLEX : GLenum) (VariableSortOrder : GLenum → Int)
    (debugBuild : Bool) (self : FragmentShader) : ShaderCall → FragmentShader
  | ShaderCall.setSource count string length =>
    { self with toShader := self.toShader.setSource count string length }
  | ShaderCall.compile clientVersion translation =>
    self.compile stdSort GL_STRUCT_ANGLEX VariableSortOrder debugBuild clientVersion
      translation

/-- A sequence of calls on a fragment shader. -/
def FragmentShader.run
    (stdSort : (PackedVarying → PackedVarying → Bool) → List PackedVarying →
      List PackedVarying)
    (GL_STRUCT_ANGLEX : GLenum) (VariableSortOrder : GLenum → Int)
    (debugBuild : Bool) (self : FragmentShader) (calls : List ShaderCall) :
    FragmentShader :=
  calls.foldl (FragmentShader.call stdSort GL_STRUCT_ANGLEX VariableSortOrder debugBuild)
    self

/-! ## Reference counting -/

/-- `Shader::addRef` (Shader.cpp 163-166); `mRefCount` is an `unsigned int`. -/
def Shader.addRef (self : Shader) : Shader :=
  { self with mRefCount := toUInt32 (self.mRefCount + 1) }

/-- `Shader::release` (Shader.cpp 168-176). The second component lists the handles passed
to `mResourceManager->deleteShader` during the call. -/
def Shader.release (self : Shader) : Shader × List GLuint :=
  let self := { self with mRefCount := decUInt32 self.mRefCount }
  (self, if self.mRefCount = 0 ∧ self.mDeleteStatus = true then [self.mHandle] else [])

/-- `Shader::getRefCount` (Shader.cpp 178-181). -/
def Shader.getRefCount (self : Shader) : Nat :=
  self.mRefCount

/-- `Shader::isFlaggedForDeletion` (Shader.cpp 183-186). -/
def Shader.isFlaggedForDeletion (self : Shader) : Bool :=
  self.mDeleteStatus

/-- `Shader::flagForDeletion` (Shader.cpp 188-191). -/
def Shader.flagForDeletion (self : Shader) : Shader :=
  { self with mDeleteStatus := true }

/-- The three reference-lifecycle calls. -/
inductive RefCall
  | addRef
  | release
  | flagForDeletion
  deriving DecidableEq

/-- One reference-lifecycle call, with the handles it passes to `deleteShader`. -/
def Shader.refCall (self : Shader) : RefCall → Shader × List GLuint
  | RefCall.addRef => (self.addRef, [])
  | RefCall.release => self.release
  | RefCall.flagForDeletion => (self.flagForDeletion, [])

/-- Record of one call in a run: the state before, the call, the handles passed to
`deleteShader` during it, the state after. -/
structure RefStep where
  before : Shader
  call : RefCall
  deleted : List GLuint
  after : Shader

/-- The records of a sequence of reference-lifecycle calls, in order. -/
def Shader.refTrace : Shader → List RefCall → List RefStep
  | _, [] => []
  | self, call :: rest =>
    { before := self, call := call, deleted := (self.refCall call).2,
      after := (self.refCall call).1 } :: Shader.refTrace (self.refCall call).1 rest

/-! ## Accessors -/

/-- `Shader::getUniformRegister` (Shader.cpp 126-130); `none` when the name is not a key
of the map, where the `ASSERT` fails. -/
def Shader.getUniformRegister (self : Shader) (uniformName : String) : Option Nat :=
  self.mUniformRegisterMap uniformName

/-- `Shader::getInterfaceBlockRegister` (Shader.cpp 132-136); `none` when the name is not a
key of the map, where the `ASSERT` fails. -/
def Shader.getInterfaceBlockRegister (self : Shader) (blockName : String) : Option Nat :=
  self.mInterfaceBlockRegisterMap blockName

/-- `Shader::getShaderVersion` (Shader.cpp 473-476). -/
def Shader.getShaderVersion (self : Shader) : Int :=
  self.mShaderVersion

/-- `Shader::getInfoLogLength` (Shader.cpp 65-68). -/
def Shader.getInfoLogLength (self : Shader) : Int :=
  if self.mInfoLog = "" then 0 else toInt32 (self.mInfoLog.length + 1)

/-- `Shader::getInfoLog` (Shader.cpp 70-86): the characters stored into the caller's
buffer from its start on, and the value stored through `length`. -/
def Shader.getInfoLog (self : Shader) (bufSize : Int) : List Char × Int :=
  if bufSize > 0 then
    (self.mInfoLog.data.take
        (min (bufSize - 1) (toInt32 self.mInfoLog.length)).toNat ++ [Char.ofNat 0],
      min (bufSize - 1) (toInt32 self.mInfoLog.length))
  else
    ([], 0)

/-- `Shader::getSourceLength` (Shader.cpp 88-91). -/
def Shader.getSourceLength (self : Shader) : Int :=
  if self.mSource = "" then 0 else toInt32 (self.mSource.length + 1)

/-- `Shader::getTranslatedSourceLength` (Shader.cpp 93-96). -/
def Shader.getTranslatedSourceLength (self : Shader) : Int :=
  if self.mHlsl = "" then 0 else toInt32 (self.mHlsl.length + 1)

/-- `Shader::getSourceImpl` (Shader.cpp 98-114): the characters stored into the caller's
buffer from its start on, and the value stored through `length`. -/
def Shader.getSourceImpl (source : String) (bufSize : Int) : List Char × Int :=
  if bufSize > 0 then
    (source.data.take (min (bufSize - 1) (toInt32 source.length)).toNat ++ [Char.ofNat 0],
      min (bufSize - 1) (toInt32 source.length))
  else
    ([], 0)

/-- `Shader::getSource` (Shader.cpp 116-119). -/
def Shader.getSource (self : Shader) (bufSize : Int) : List Char × Int :=
  Shader.getSourceImpl self.mSource bufSize

/-- `Shader::getTranslatedSource` (Shader.cpp 121-124). -/
def Shader.getTranslatedSource (self : Shader) (bufSize : Int) : List Char × Int :=
  Shader.getSourceImpl self.mHlsl bufSize

/-- The usage flags of a shader agree with the sentinel markers of `parseVaryings`: each
flag is set exactly when `succeeded` holds and its marker occurs in the translated
source. -/
def Shader.FlagsFollowMarkers (self : Shader) (succeeded : Bool) : Prop :=
  (self.mUsesMultipleRenderTargets = true ↔
    succeeded = true ∧ stringContains self.mHlsl "GL_USES_MRT" = true) ∧
  (self.mUsesFragColor = true ↔
    succeeded = true ∧ stringContains self.mHlsl "GL_USES_FRAG_COLOR" = true) ∧
  (self.mUsesFragData = true ↔
    succeeded = true ∧ stringContains self.mHlsl "GL_USES_FRAG_DATA" = true) ∧
  (self.mUsesFragCoord = true ↔
    succeeded = true ∧ stringContains self.mHlsl "GL_USES_FRAG_COORD" = true) ∧
  (self.mUsesFrontFacing = true ↔
    succeeded = true ∧ stringContains self.mHlsl "GL_USES_FRONT_FACING" = true) ∧
  (self.mUsesPointSize = true ↔
    succeeded = true ∧ stringContains self.mHlsl "GL_USES_POINT_SIZE" = true) ∧
  (self.mUsesPointCoord = true ↔
    succeeded = true ∧ stringContains self.mHlsl "GL_USES_POINT_COORD" = true) ∧
  (self.mUsesDepthRange = true ↔
    succeeded = true ∧ stringContains self.mHlsl "GL_USES_DEPTH_RANGE" = true) ∧
  (self.mUsesFragDepth = true ↔
    succeeded = true ∧ stringContains self.mHlsl "GL_USES_FRAG_DEPTH" = true) ∧
  (self.mUsesDiscardRewriting = true ↔
    succeeded = true ∧ stringContains self.mHlsl "ANGLE_USES_DISCARD_REWRITING" = true) ∧
  (self.mUsesNestedBreak = true ↔
    succeeded = true ∧ stringContains self.mHlsl "ANGLE_USES_NESTED_BREAK" = true)

/-- All eleven usage flags are false. -/
def Shader.NoUsageFlags (self : Shader) : Prop :=
  self.mUsesMultipleRenderTargets = false ∧ self.mUsesFragColor = false ∧
  self.mUsesFragData = false ∧ self.mUsesFragCoord = false ∧
  self.mUsesFrontFacing = false ∧ self.mUsesPointSize = false ∧
  self.mUsesPointCoord = false ∧ self.mUsesDepthRange = false ∧
  self.mUsesFragDepth = false ∧ self.mUsesDiscardRewriting = false ∧
  self.mUsesNestedBreak = false

/-- The contract of text retrieval into a caller buffer, for a stored text, its retrieval
function `get` (characters written, reported length) and its length query: a positive
`bufSize` yields the first `min (bufSize - 1) |text|` characters followed by a NUL and
reports that count; a `bufSize` of at most 0 writes nothing and reports 0; the length query
is 0 for the empty text and `|text| + 1` otherwise; a buffer of the queried length
retrieves the whole text. -/
def RetrievesText (text : String) (get : Int → List Char × Int) (lengthQuery : Int) : Prop :=
  (∀ bufSize : Int, 0 < bufSize →
    get bufSize =
      (text.data.take (min (bufSize - 1) (text.length : Int)).toNat ++ [Char.ofNat 0],
        min (bufSize - 1) (text.length : Int))) ∧
  (∀ bufSize : Int, bufSize ≤ 0 → get bufSize = ([], 0)) ∧
  (lengthQuery = if text = "" then 0 else (text.length : Int) + 1) ∧
  (text ≠ "" → get lengthQuery = (text.data ++ [Char.ofNat 0], (text.length : Int))) ∧
  (text = "" → get lengthQuery = ([], 0))

/-! ## Shared compiler instances -/

/-- The static members `Shader::mFragmentCompiler` and `Shader::mVertexCompiler`; `none`
is `NULL`. -/
structure Compilers where
  mFragmentCompiler : Option Nat
  mVertexCompiler : Option Nat
  deriving DecidableEq

/-- What the translator library answers while compilers are constructed: the result of
`ShInitialize()` and the handles the two `ShConstructCompiler` calls return. -/
structure TranslatorLibrary where
  initResult : Int
  fragmentCompiler : Option Nat
  vertexCompiler : Option Nat

/-- `Shader::initializeCompiler` (Shader.cpp 194-239). -/
def Shader.initializeCompiler (library : TranslatorLibrary) (compilers : Compilers) :
    Compilers :=
  if compilers.mFragmentCompiler = none then
    if library.initResult ≠ 0 then
      { mFragmentCompiler := library.fragmentCompiler
        mVertexCompiler := library.vertexCompiler }
    else
      compilers
  else
    compilers

/-- `Shader::releaseCompiler` (Shader.cpp 241-250). -/
def Shader.releaseCompiler (_compilers : Compilers) : Compilers :=
  { mFragmentCompiler := none, mVertexCompiler := none }

/-- `VertexShader::compile` (Shader.cpp 500-507) with the shared compiler handles made
explicit. `translator handle` is what the translator answers on that handle. The argument
of `compileToHLSL(mVertexCompiler)` is read before `compileToHLSL` runs its first
statement, `initializeCompiler()`; `parseAttributes` and `parseVaryings` read the static
member afterwards. The result gives the static members after the call, the handle
`ShCompile` was called with, and the shader. -/
def VertexShader.compileShared (library : TranslatorLibrary)
    (translator : Option Nat → Translation) (debugBuild : Bool) (clientVersion : Int)
    (compilers : Compilers) (self : VertexShader) :
    Compilers × Option Nat × VertexShader :=
  let self := self.uncompile
  let compiler := compilers.mVertexCompiler
  let compilers := Shader.initializeCompiler library compilers
  let self := { self with
    toShader := self.toShader.compileToHLSL debugBuild clientVersion (translator compiler) }
  let self := self.parseAttributes (translator compilers.mVertexCompiler)
  let self := { self with
    toShader := self.toShader.parseVaryings (translator compilers.mVertexCompiler) }
  (compilers, compiler, self)

/-- `FragmentShader::compile` (Shader.cpp 553-566) with the shared compiler handles made
explicit, as in `VertexShader.compileShared`. -/
def FragmentShader.compileShared (library : TranslatorLibrary)
    (translator : Option Nat → Translation)
    (stdSort : (PackedVarying → PackedVarying → Bool) → List PackedVarying →
      List PackedVarying)
    (GL_STRUCT_ANGLEX : GLenum) (VariableSortOrder : GLenum → Int)
    (debugBuild : Bool) (clientVersion : Int)
    (compilers : Compilers) (self : FragmentShader) :
    Compilers × Option Nat × FragmentShader :=
  let self := self.uncompile
  let compiler := compilers.mFragmentCompiler
  let compilers := Shader.initializeCompiler library compilers
  let self := { self with
    toShader := self.toShader.compileToHLSL debugBuild clientVersion (translator compiler) }
  let self := { self with
    toShader := self.toShader.parseVaryings (translator compilers.mFragmentCompiler) }
  let self := { self with
    toShader := { self.toShader with
      mVaryings :=
        stdSort (Shader.compareVarying GL_STRUCT_ANGLEX VariableSortOrder)
          self.toShader.mVaryings } }
  if self.toShader.getHLSL ≠ "" then
    (compilers, compiler,
      { self with
        mActiveOutputVariables :=
          (translator compilers.mFragmentCompiler).outputVariables })
  else
    (compilers, compiler, self)

/-- Two `compile()` calls in a row on one vertex shader, nothing in between, with the
shared compiler handles made explicit: the shader after the first call and after the
second. The second call starts from the static members the first call left. -/
def VertexShader.compileSharedTwice (library : TranslatorLibrary)
    (translator : Option Nat → Translation) (debugBuild : Bool) (clientVersion : Int)
    (compilers : Compilers) (self : VertexShader) : VertexShader × VertexShader :=
  ((VertexShader.compileShared library translator debugBuild clientVersion compilers
      self).2.2,
    (VertexShader.compileShared library translator debugBuild clientVersion
      (VertexShader.compileShared library translator debugBuild clientVersion compilers
        self).1
      (VertexShader.compileShared library translator debugBuild clientVersion compilers
        self).2.2).2.2)

/-- Two `compile()` calls in a row on one fragment shader, as
`VertexShader.compileSharedTwice`. -/
def FragmentShader.compileSharedTwice (library : TranslatorLibrary)
    (translator : Option Nat → Translation)
    (stdSort : (PackedVarying → PackedVarying → Bool) → List PackedVarying →
      List PackedVarying)
    (GL_STRUCT_ANGLEX : GLenum) (VariableSortOrder : GLenum → Int)
    (debugBuild : Bool) (clientVersion : Int)
    (compilers : Compilers) (self : FragmentShader) : FragmentShader × FragmentShader :=
  ((FragmentShader.compileShared library translator stdSort GL_STRUCT_ANGLEX
      VariableSortOrder debugBuild clientVersion compilers self).2.2,
    (FragmentShader.compileShared library translator stdSort GL_STRUCT_ANGLEX
      VariableSortOrder debugBuild clientVersion
      (FragmentShader.compileShared library translator stdSort GL_STRUCT_ANGLEX
        VariableSortOrder debugBuild clientVersion compilers self).1
      (FragmentShader.compileShared library translator stdSort GL_STRUCT_ANGLEX
        VariableSortOrder debugBuild clientVersion compilers self).2.2).2.2)

/-! ## Sample data -/

def GL_FLOAT : GLenum := 0x1406
def GL_FLOAT_VEC4 : GLenum := 0x8B52
def GL_FLOAT_MAT4 : GLenum := 0x8B5C

/-- A register-count function giving a `mat4` four registers and every other type one. -/
def sampleRegisterCount : GLenum → Int := fun type => if type = GL_FLOAT_MAT4 then 4 else 1

/-- A vertex shader whose active attributes are `a : vec4`, `b : mat4`, `c : float`. -/
def sampleVertexShader : VertexShader :=
  { VertexShader.new 1 with
    mActiveAttributes :=
      [ { name := "a", type := GL_FLOAT_VEC4, arraySize := 1 },
        { name := "b", type := GL_FLOAT_MAT4, arraySize := 1 },
        { name := "c", type := GL_FLOAT, arraySize := 1 } ] }

/-- A vertex shader one of whose active attributes has the empty name. -/
def sampleVertexShaderWithUnnamed : VertexShader :=
  { VertexShader.new 1 with
    mActiveAttributes :=
      [ { name := "", type := GL_FLOAT_VEC4, arraySize := 1 },
        { name := "c", type := GL_FLOAT, arraySize := 1 } ] }

def GL_INT_VEC4 : GLenum := 0x8B55

/-- A value for the constant `GL_STRUCT_ANGLEX`. -/
def sampleStructType : GLenum := 0x8F20

/-- A precedence table without ties among `mat4`, `vec4`, `float`. -/
def sampleSortOrder : GLenum → Int := fun type =>
  if type = GL_FLOAT_MAT4 then 0 else if type = GL_FLOAT_VEC4 then 2
  else if type = GL_FLOAT then 5 else 6

/-- A precedence table that ranks the four-component vector types together. -/
def tiedSortOrder : GLenum → Int := fun type =>
  if type = GL_FLOAT_MAT4 then 0 else if type = GL_FLOAT_VEC4 then 2
  else if type = GL_INT_VEC4 then 2 else if type = GL_FLOAT then 5 else 6

/-- A successful translation that reports the varyings `(vec4, 1)`, `(vec4, 4)`,
`(struct, 1)`, `(float, 1)`. -/
def sampleTranslation : Translation :=
  { result := 1
    shaderVersion := 100
    objectCode := "void gl_main() {}"
    infoLog := ""
    uniforms := []
    uniformRegister := fun _ => none
    interfaceBlocks := []
    interfaceBlockRegister := fun _ => none
    varyings :=
      [ { name := "a", type := GL_FLOAT_VEC4, arraySize := 1 },
        { name := "b", type := GL_FLOAT_VEC4, arraySize := 4 },
        { name := "c", type := sampleStructType, arraySize := 1 },
        { name := "d", type := GL_FLOAT, arraySize := 1 } ]
    attributes := []
    outputVariables := [] }

/-- A successful translation that reports the varyings `(vec4, 3)`, `(ivec4, 1)`,
`(vec4, 1)`. -/
def tiedTranslation : Translation :=
  { sampleTranslation with
    varyings :=
      [ { name := "p", type := GL_FLOAT_VEC4, arraySize := 3 },
        { name := "q", type := GL_INT_VEC4, arraySize := 1 },
        { name := "r", type := GL_FLOAT_VEC4, arraySize := 1 } ] }

/-- A translation that reports success and returns the empty string as object code. -/
def emptyCodeTranslation : Translation :=
  { sampleTranslation with objectCode := "" }

/-- A translation that reports failure with a diagnostic. -/
def rejectedTranslation : Translation :=
  { sampleTranslation with
    result := 0, objectCode := "", infoLog := "ERROR: 0:1: syntax error", varyings := [] }

/-- A successful translation with one active uniform `u` in register 3 and one active
interface block `B` in register 1, and one attribute. -/
def uniformTranslation : Translation :=
  { sampleTranslation with
    uniforms := [{ name := "u", type := GL_FLOAT_VEC4, arraySize := 1 }]
    uniformRegister := fun name => if name = "u" then some 3 else none
    interfaceBlocks := [{ name := "B" }]
    interfaceBlockRegister := fun name => if name = "B" then some 1 else none
    attributes := [{ name := "a", type := GL_FLOAT_VEC4, arraySize := 1 }] }

/-- A translation whose detected version is 300 and whose result is success. -/
def version300Translation : Translation :=
  { sampleTranslation with shaderVersion := 300 }

/-- A translation that reports success with an attribute but returns the empty string as
object code. -/
def emptyCodeAttributeTranslation : Translation :=
  { uniformTranslation with objectCode := "" }

/-- A translator library whose initialization succeeds and that hands out the fragment
compiler handle 11 and the vertex compiler handle 12. -/
def sampleLibrary : TranslatorLibrary :=
  { initResult := 1, fragmentCompiler := some 11, vertexCompiler := some 12 }

/-- A translator that fails on the `NULL` handle and succeeds on every other handle. -/
def sampleTranslator : Option Nat → Translation := fun handle =>
  match handle with
  | none => rejectedTranslation
  | some _ => sampleTranslation

/-- A successful translation whose object code carries the discard-rewriting marker. -/
def discardTranslation : Translation :=
  { sampleTranslation with
    objectCode := "#define ANGLE_USES_DISCARD_REWRITING\nvoid gl_main() {}" }

/-- A precedence table that gives every type its own rank (the value of the enumerant). -/
def distinctSortOrder : GLenum → Int := fun type => (type : Int)

/-- A vertex shader with the attributes `a : vec4`, `b : mat4`, `c : float` and a fourth
attribute `d : vec4`. -/
def fourAttributeShader : VertexShader :=
  { VertexShader.new 1 with
    mActiveAttributes :=
      [ { name := "a", type := GL_FLOAT_VEC4, arraySize := 1 },
        { name := "b", type := GL_FLOAT_MAT4, arraySize := 1 },
        { name := "c", type := GL_FLOAT, arraySize := 1 },
        { name := "d", type := GL_FLOAT_VEC4, arraySize := 1 } ] }

end gl

/-! # Theorems -/

namespace gl

/-! ## Workaround selection -/

/-- C1: `getD3DWorkarounds` returns SKIP_OPTIMIZATION whenever the discard-rewriting flag
is set (whatever the nested-break flag), MAX_OPTIMIZATION exactly when discard-rewriting is
false and nested-break is true, NONE exactly when both are false; and two shader states
that agree on these two flags get the same result, whatever their other fields hold. -/
theorem getD3DWorkarounds_selects (s : Shader) :
    (s.mUsesDiscardRewriting = true →
      s.getD3DWorkarounds = rx.D3DWorkaroundType.ANGLE_D3D_WORKAROUND_SKIP_OPTIMIZATION) ∧
    (s.getD3DWorkarounds = rx.D3DWorkaroundType.ANGLE_D3D_WORKAROUND_MAX_OPTIMIZATION ↔
      s.mUsesDiscardRewriting = false ∧ s.mUsesNestedBreak = true) ∧
    (s.getD3DWorkarounds = rx.D3DWorkaroundType.ANGLE_D3D_WORKAROUND_NONE ↔
      s.mUsesDiscardRewriting = false ∧ s.mUsesNestedBreak = false) ∧
    (∀ t : Shader, t.mUsesDiscardRewriting = s.mUsesDiscardRewriting →
      t.mUsesNestedBreak = s.mUsesNestedBreak → t.getD3DWorkarounds = s.getD3DWorkarounds) := by
  refine ⟨?_, ?_, ?_, ?_⟩
  · intro h
    simp [Shader.getD3DWorkarounds, h]
  · cases hd : s.mUsesDiscardRewriting <;> cases hn : s.mUsesNestedBreak <;>
      simp [Shader.getD3DWorkarounds, hd, hn]
  · cases hd : s.mUsesDiscardRewriting <;> cases hn : s.mUsesNestedBreak <;>
      simp [Shader.getD3DWorkarounds, hd, hn]
  · intro t hd hn
    simp [Shader.getD3DWorkarounds, hd, hn]

/-! ## Attribute semantic index -/

theorem toInt32_add_toInt32 (x y : Int) : toInt32 (toInt32 x + y) = toInt32 (x + y) := by
  unfold toInt32
  norm_num
  omega

theorem toInt32_of_fits (x : Int) (hlo : -2 ^ 31 ≤ x) (hhi : x < 2 ^ 31) : toInt32 x = x := by
  unfold toInt32
  norm_num at hlo hhi ⊢
  omega

theorem getSemanticIndexLoop_absent (count : GLenum → Int) (attributeName : String) :
    ∀ (attributes : List ShaderVariable) (semanticIndex : Int),
      (∀ a ∈ attributes, a.name ≠ attributeName) →
      getSemanticIndexLoop count attributeName attributes semanticIndex = -1 := by
  intro attributes
  induction attributes with
  | nil => intro _ _; rfl
  | cons a rest ih =>
    intro semanticIndex h
    have ha : a.name ≠ attributeName := h a (List.mem_cons_self _ _)
    simp only [getSemanticIndexLoop, if_neg ha]
    exact ih _ (fun b hb => h b (List.mem_cons_of_mem _ hb))

theorem getSemanticIndexLoop_found (count : GLenum → Int) (attributeName : String) :
    ∀ (attributes : List ShaderVariable) (x : Int),
      (∃ a ∈ attributes, a.name = attributeName) →
      getSemanticIndexLoop count attributeName attributes (toInt32 x) =
        toInt32 (x + ((attributes.takeWhile (fun a => decide (a.name ≠ attributeName))).map
          (fun a => count a.type)).sum) := by
  intro attributes
  induction attributes with
  | nil => intro _ h; obtain ⟨a, ha, _⟩ := h; cases ha
  | cons a rest ih =>
    intro x h
    by_cases ha : a.name = attributeName
    · simp [getSemanticIndexLoop, ha]
    · have hrest : ∃ b ∈ rest, b.name = attributeName := by
        obtain ⟨b, hb, hname⟩ := h
        rcases List.mem_cons.1 hb with rfl | hb
        · exact absurd hname ha
        · exact ⟨b, hb, hname⟩
      simp only [getSemanticIndexLoop, if_neg ha]
      rw [toInt32_add_toInt32, ih _ hrest]
      simp [List.takeWhile_cons, ha, add_assoc]

/-- C2: for every active-attribute list and every non-empty name occurring in it,
`getSemanticIndex` is the sum of `VariableRegisterCount(type)` over the attributes strictly
before the first attribute with exactly that name: the sum as the code forms it in `int`
arithmetic, hence the exact sum whenever that fits an `int`. -/
theorem getSemanticIndex_eq_sum_before_first_match (VariableRegisterCount : GLenum → Int)
    (self : VertexShader) (attributeName : String) (hname : attributeName ≠ "")
    (hmem : ∃ a ∈ self.mActiveAttributes, a.name = attributeName) :
    self.getSemanticIndex VariableRegisterCount attributeName =
        toInt32 (((self.mActiveAttributes.takeWhile
          (fun a => decide (a.name ≠ attributeName))).map
            (fun a => VariableRegisterCount a.type)).sum) ∧
    (-2 ^ 31 ≤ ((self.mActiveAttributes.takeWhile
          (fun a => decide (a.name ≠ attributeName))).map
            (fun a => VariableRegisterCount a.type)).sum →
      ((self.mActiveAttributes.takeWhile
          (fun a => decide (a.name ≠ attributeName))).map
            (fun a => VariableRegisterCount a.type)).sum < 2 ^ 31 →
      self.getSemanticIndex VariableRegisterCount attributeName =
        ((self.mActiveAttributes.takeWhile
          (fun a => decide (a.name ≠ attributeName))).map
            (fun a => VariableRegisterCount a.type)).sum) := by
  have hloop := getSemanticIndexLoop_found VariableRegisterCount attributeName
    self.mActiveAttributes 0 hmem
  have hzero : toInt32 0 = 0 := by decide
  rw [hzero, zero_add] at hloop
  have hget : self.getSemanticIndex VariableRegisterCount attributeName =
      getSemanticIndexLoop VariableRegisterCount attributeName self.mActiveAttributes 0 := by
    simp [VertexShader.getSemanticIndex, hname]
  refine ⟨hget.trans hloop, fun hlo hhi => ?_⟩
  rw [hget, hloop, toInt32_of_fits _ hlo hhi]

/-- C2, at the sample attributes `a : vec4` (1 register), `b : mat4` (4), `c : float` (1):
the index of `c` is 5 and the index of `a` is 0. -/
theorem getSemanticIndex_eq_sum_before_first_match_witness :
    sampleVertexShader.getSemanticIndex sampleRegisterCount "c" = 5 ∧
    sampleVertexShader.getSemanticIndex sampleRegisterCount "a" = 0 :=
  ⟨((getSemanticIndex_eq_sum_before_first_match sampleRegisterCount sampleVertexShader "c"
      (by decide) (by decide)).2 (by decide) (by decide)).trans (by decide),
   ((getSemanticIndex_eq_sum_before_first_match sampleRegisterCount sampleVertexShader "a"
      (by decide) (by decide)).2 (by decide) (by decide)).trans (by decide)⟩

theorem sum_takeWhile_nonneg (count : GLenum → Int) (p : ShaderVariable → Bool)
    (attributes : List ShaderVariable) (h : ∀ a ∈ attributes, 0 ≤ count a.type) :
    0 ≤ ((attributes.takeWhile p).map (fun a => count a.type)).sum := by
  apply List.sum_nonneg
  intro x hx
  obtain ⟨a, ha, rfl⟩ := List.mem_map.1 hx
  exact h a ((List.takeWhile_sublist p).subset ha)

/-- C3: `getSemanticIndex` returns -1 when the name is empty (also when an attribute with
the empty name is active) or when no active attribute has exactly that name; and when every
register width is non-negative and the sum of the widths before the match fits an `int`,
it returns -1 in those two cases only. -/
theorem getSemanticIndex_not_found (VariableRegisterCount : GLenum → Int)
    (self : VertexShader) (attributeName : String) :
    ((attributeName = "" ∨ ∀ a ∈ self.mActiveAttributes, a.name ≠ attributeName) →
      self.getSemanticIndex VariableRegisterCount attributeName = -1) ∧
    ((∀ a ∈ self.mActiveAttributes, 0 ≤ VariableRegisterCount a.type) →
      ((self.mActiveAttributes.takeWhile (fun a => decide (a.name ≠ attributeName))).map
        (fun a => VariableRegisterCount a.type)).sum < 2 ^ 31 →
      self.getSemanticIndex VariableRegisterCount attributeName = -1 →
      (attributeName = "" ∨ ∀ a ∈ self.mActiveAttributes, a.name ≠ attributeName)) := by
  constructor
  · rintro (hempty | habsent)
    · simp [VertexShader.getSemanticIndex, hempty]
    · by_cases hname : attributeName = ""
      · simp [VertexShader.getSemanticIndex, hname]
      · simp only [VertexShader.getSemanticIndex, ne_eq, hname, not_false_eq_true, if_true]
        exact getSemanticIndexLoop_absent _ _ _ _ habsent
  · intro hnonneg hfit hres
    by_cases hname : attributeName = ""
    · exact Or.inl hname
    · right
      by_contra hfound
      have hmem : ∃ a ∈ self.mActiveAttributes, a.name = attributeName := by
        by_contra hnone
        exact hfound (fun a ha heq => hnone ⟨a, ha, heq⟩)
      have hsum := sum_takeWhile_nonneg VariableRegisterCount
        (fun a => decide (a.name ≠ attributeName)) self.mActiveAttributes hnonneg
      have hloop := getSemanticIndexLoop_found VariableRegisterCount attributeName
        self.mActiveAttributes 0 hmem
      have hzero : toInt32 0 = 0 := by decide
      rw [hzero, zero_add, toInt32_of_fits _ (by linarith) hfit] at hloop
      have hget : self.getSemanticIndex VariableRegisterCount attributeName =
          getSemanticIndexLoop VariableRegisterCount attributeName self.mActiveAttributes 0 := by
        simp [VertexShader.getSemanticIndex, hname]
      rw [hget, hloop] at hres
      linarith

/-- C3, at sample inputs: the empty name gives -1 although an attribute with the empty
name is active, the absent name `missing` gives -1, and a -1 for the name `missing` among
`a`, `b`, `c` shows that no attribute has that name. -/
theorem getSemanticIndex_not_found_witness :
    sampleVertexShaderWithUnnamed.getSemanticIndex sampleRegisterCount "" = -1 ∧
    sampleVertexShader.getSemanticIndex sampleRegisterCount "missing" = -1 ∧
    ("missing" = "" ∨ ∀ a ∈ sampleVertexShader.mActiveAttributes, a.name ≠ "missing") :=
  ⟨(getSemanticIndex_not_found sampleRegisterCount sampleVertexShaderWithUnnamed "").1
      (Or.inl rfl),
   (getSemanticIndex_not_found sampleRegisterCount sampleVertexShader "missing").1
      (Or.inr (by decide)),
   (getSemanticIndex_not_found sampleRegisterCount sampleVertexShader "missing").2
      (by decide) (by decide) (by decide)⟩

/-! ## Varying packing order -/

theorem compareVarying_irrefl (structType : GLenum) (sortOrder : GLenum → Int)
    (x : PackedVarying) : Shader.compareVarying structType sortOrder x x = false := by
  simp [Shader.compareVarying]

theorem compareVarying_asymm_of_ranks_ne (structType : GLenum) (sortOrder : GLenum → Int)
    (x y : PackedVarying)
    (hrank : x.type ≠ y.type → x.type ≠ structType → y.type ≠ structType →
      sortOrder x.type ≠ sortOrder y.type)
    (hxy : Shader.compareVarying structType sortOrder x y = true) :
    Shader.compareVarying structType sortOrder y x = false := by
  unfold Shader.compareVarying at hxy ⊢
  by_cases ht : x.type = y.type
  · have ht2 : y.type = x.type := ht.symm
    simp only [ht, if_true, decide_eq_true_eq] at hxy
    simp only [ht2, if_true, decide_eq_false_iff_not]
    omega
  · have ht2 : ¬ y.type = x.type := fun h => ht h.symm
    simp only [ht, ht2, if_false] at hxy ⊢
    by_cases hx : x.type = structType
    · simp [hx] at hxy
    · by_cases hy : y.type = structType
      · simp [hy]
      · have hne := hrank ht hx hy
        simp only [hx, hy, if_false, decide_eq_true_eq] at hxy
        simp only [hx, hy, if_false, decide_eq_false_iff_not]
        intro hle
        exact hne (le_antisymm hxy hle)

/-- C5 (evaluation at the failing input): with a precedence table that ranks `vec4` and
`ivec4` together, `compareVarying` puts a `vec4` varying before an `ivec4` varying and also
the `ivec4` varying before the `vec4` one, so it is not a strict comparator there. -/
theorem compareVarying_tied_ranks_both_true :
    Shader.compareVarying sampleStructType tiedSortOrder
        { name := "u", type := GL_FLOAT_VEC4, arraySize := 1 }
        { name := "v", type := GL_INT_VEC4, arraySize := 1 } = true ∧
    Shader.compareVarying sampleStructType tiedSortOrder
        { name := "v", type := GL_INT_VEC4, arraySize := 1 }
        { name := "u", type := GL_FLOAT_VEC4, arraySize := 1 } = true := by
  constructor <;> decide

/-- C6: a varying of the struct type never sorts before a varying of another type, and a
varying of another type always sorts before a struct varying, for every precedence table
and all array sizes. -/
theorem compareVarying_struct_last (GL_STRUCT_ANGLEX : GLenum)
    (VariableSortOrder : GLenum → Int) (x y : PackedVarying)
    (hx : x.type = GL_STRUCT_ANGLEX) (hy : y.type ≠ GL_STRUCT_ANGLEX) :
    Shader.compareVarying GL_STRUCT_ANGLEX VariableSortOrder x y = false ∧
    Shader.compareVarying GL_STRUCT_ANGLEX VariableSortOrder y x = true := by
  have hxy : x.type ≠ y.type := fun h => hy (h ▸ hx)
  have hyx : y.type ≠ x.type := fun h => hxy h.symm
  constructor
  · unfold Shader.compareVarying
    rw [if_neg hxy, if_pos hx]
  · unfold Shader.compareVarying
    rw [if_neg hyx, if_neg hy, if_pos hx]

/-- C6, at a struct array of size 8 against a single `float`. -/
theorem compareVarying_struct_last_witness :
    Shader.compareVarying sampleStructType sampleSortOrder
        { name := "s", type := sampleStructType, arraySize := 8 }
        { name := "f", type := GL_FLOAT, arraySize := 1 } = false ∧
    Shader.compareVarying sampleStructType sampleSortOrder
        { name := "f", type := GL_FLOAT, arraySize := 1 }
        { name := "s", type := sampleStructType, arraySize := 8 } = true :=
  compareVarying_struct_last sampleStructType sampleSortOrder
    { name := "s", type := sampleStructType, arraySize := 8 }
    { name := "f", type := GL_FLOAT, arraySize := 1 } rfl (by decide)

theorem fragmentCompile_varyings
    (stdSort : (PackedVarying → PackedVarying → Bool) → List PackedVarying →
      List PackedVarying)
    (structType : GLenum) (sortOrder : GLenum → Int) (debugBuild : Bool)
    (clientVersion : Int) (self : FragmentShader) (translation : Translation) :
    (self.compile stdSort structType sortOrder debugBuild clientVersion translation).mVaryings =
      stdSort (Shader.compareVarying structType sortOrder)
        ((self.toShader.uncompile.compileToHLSL debugBuild clientVersion
          translation).parseVaryings translation).mVaryings := by
  unfold FragmentShader.compile FragmentShader.uncompile
  simp only []
  split <;> rfl

theorem no_sorted_arrangement_of_mutual {α : Type} (comp : α → α → Bool) (range : List α)
    (a b : α) (ha : a ∈ range) (hb : b ∈ range) (hne : a ≠ b)
    (hab : comp a b = true) (hba : comp b a = true) (sorted : List α) :
    ¬ StdSortPostcondition comp range sorted := by
  rintro ⟨hperm, hpair⟩
  have hsym : sorted.Pairwise (fun x y => comp y x = false ∨ comp x y = false) :=
    hpair.imp (fun h => Or.inl h)
  have hall := hsym.forall (fun x y h => h.symm) (hperm.mem_iff.2 ha) (hperm.mem_iff.2 hb) hne
  rcases hall with h | h
  · rw [hba] at h; cases h
  · rw [hab] at h; cases h

theorem sorted_arrangement_properties (structType : GLenum) (sortOrder : GLenum → Int)
    (range sorted : List PackedVarying)
    (h : StdSortPostcondition (Shader.compareVarying structType sortOrder) range sorted) :
    sorted.Perm range ∧
    sorted.Pairwise (fun x y =>
      (x.type = structType → y.type = structType) ∧
      (x.type = y.type → y.arraySize ≤ x.arraySize) ∧
      (x.type ≠ y.type → x.type ≠ structType → y.type ≠ structType →
        sortOrder x.type < sortOrder y.type)) := by
  refine ⟨h.1, h.2.imp ?_⟩
  intro x y hyx
  unfold Shader.compareVarying at hyx
  refine ⟨?_, ?_, ?_⟩
  · intro hx
    by_contra hy
    have hne : y.type ≠ x.type := fun e => hy (e.trans hx)
    rw [if_neg hne, if_neg hy, if_pos hx] at hyx
    cases hyx
  · intro hxy
    rw [if_pos hxy.symm] at hyx
    simpa using hyx
  · intro hxy hx hy
    have hne : y.type ≠ x.type := fun e => hxy e.symm
    rw [if_neg hne, if_neg hy, if_neg hx] at hyx
    simpa using hyx

/-- C4 (evaluation at the failing input): the translator reports the varyings
`(vec4, 3)`, `(ivec4, 1)`, `(vec4, 1)` and the precedence table ranks `vec4` and `ivec4`
together. `compareVarying` then puts the first before the second and the second before the
first, so whatever `std::sort` leaves in `mVaryings` after `FragmentShader::compile`, it is
not an arrangement of the reported varyings that is sorted by `compareVarying`. -/
theorem fragmentCompile_tied_ranks_not_sorted
    (stdSort : (PackedVarying → PackedVarying → Bool) → List PackedVarying →
      List PackedVarying) :
    ¬ StdSortPostcondition (Shader.compareVarying sampleStructType tiedSortOrder)
        (tiedTranslation.varyings.map PackedVarying.ofVarying)
        (FragmentShader.compile stdSort sampleStructType tiedSortOrder false 2
          (FragmentShader.new 1) tiedTranslation).mVaryings :=
  no_sorted_arrangement_of_mutual _ _
    { name := "p", type := GL_FLOAT_VEC4, arraySize := 3 }
    { name := "q", type := GL_INT_VEC4, arraySize := 1 }
    (by decide) (by decide) (by decide) (by decide) (by decide) _

theorem fragmentCompile_tied_ranks_insertionSort :
    (FragmentShader.compile insertionSort sampleStructType tiedSortOrder false 2
        (FragmentShader.new 1) tiedTranslation).mVaryings =
      [ { name := "r", type := GL_FLOAT_VEC4, arraySize := 1 },
        { name := "q", type := GL_INT_VEC4, arraySize := 1 },
        { name := "p", type := GL_FLOAT_VEC4, arraySize := 3 } ] := by
  rw [fragmentCompile_varyings]
  decide

theorem fragmentCompile_sample_sorted :
    StdSortPostcondition (Shader.compareVarying sampleStructType sampleSortOrder)
      (sampleTranslation.varyings.map PackedVarying.ofVarying)
      [ { name := "b", type := GL_FLOAT_VEC4, arraySize := 4 },
        { name := "a", type := GL_FLOAT_VEC4, arraySize := 1 },
        { name := "d", type := GL_FLOAT, arraySize := 1 },
        { name := "c", type := sampleStructType, arraySize := 1 } ] ∧
    (FragmentShader.compile insertionSort sampleStructType sampleSortOrder false 2
        (FragmentShader.new 1) sampleTranslation).mVaryings =
      [ { name := "b", type := GL_FLOAT_VEC4, arraySize := 4 },
        { name := "a", type := GL_FLOAT_VEC4, arraySize := 1 },
        { name := "d", type := GL_FLOAT, arraySize := 1 },
        { name := "c", type := sampleStructType, arraySize := 1 } ] := by
  refine ⟨⟨?_, ?_⟩, ?_⟩
  · decide
  · decide
  · rw [fragmentCompile_varyings]
    decide

/-! ## Compiled state -/

theorem debugListing_append_ne_empty (source code : String) :
    debugListing source ++ code ≠ "" := by
  intro h
  have hdata := congrArg String.data h
  simp [debugListing, String.data_append] at hdata

theorem compileToHLSL_hlsl (debugBuild : Bool) (clientVersion : Int) (s : Shader)
    (t : Translation) :
    (s.uncompile.compileToHLSL debugBuild clientVersion t).mHlsl =
      if compileSucceeds clientVersion t = true then
        (if debugBuild = true then debugListing s.mSource ++ t.objectCode else t.objectCode)
      else "" := by
  unfold Shader.compileToHLSL compileSucceeds
  by_cases hgate : t.shaderVersion = 300 ∧ clientVersion < 3
  · simp [hgate, Shader.uncompile]
  · by_cases hres : t.result = 0
    · simp [hgate, hres, Shader.uncompile]
    · simp [hgate, hres, Shader.uncompile]

theorem parseVaryings_hlsl (s : Shader) (t : Translation) :
    (s.parseVaryings t).mHlsl = s.mHlsl := by
  unfold Shader.parseVaryings
  split <;> rfl

theorem vertexCompile_hlsl (debugBuild : Bool) (clientVersion : Int) (s : VertexShader)
    (t : Translation) :
    (s.compile debugBuild clientVersion t).mHlsl =
      (s.toShader.uncompile.compileToHLSL debugBuild clientVersion t).mHlsl := by
  unfold VertexShader.compile VertexShader.parseAttributes VertexShader.uncompile
  simp only []
  rw [parseVaryings_hlsl]
  split <;> rfl

theorem fragmentCompile_hlsl
    (stdSort : (PackedVarying → PackedVarying → Bool) → List PackedVarying →
      List PackedVarying)
    (structType : GLenum) (sortOrder : GLenum → Int)
    (debugBuild : Bool) (clientVersion : Int) (s : FragmentShader) (t : Translation) :
    (s.compile stdSort structType sortOrder debugBuild clientVersion t).mHlsl =
      (s.toShader.uncompile.compileToHLSL debugBuild clientVersion t).mHlsl := by
  unfold FragmentShader.compile FragmentShader.uncompile
  simp only []
  split <;> exact parseVaryings_hlsl _ _


theorem isCompiled_iff (s : Shader) : s.isCompiled = true ↔ s.mHlsl ≠ "" := by
  simp [Shader.isCompiled]

theorem compiled_hlsl_ne_empty_iff (debugBuild : Bool) (clientVersion : Int) (s : Shader)
    (t : Translation) :
    (s.uncompile.compileToHLSL debugBuild clientVersion t).mHlsl ≠ "" ↔
      compileSucceeds clientVersion t = true ∧ (debugBuild = true ∨ t.objectCode ≠ "") := by
  rw [compileToHLSL_hlsl]
  by_cases hs : compileSucceeds clientVersion t = true
  · cases debugBuild
    · simp [hs]
    · simp [hs, debugListing_append_ne_empty]
  · simp [hs]

/-- C9 (counterexample): in a release build the translator reports success for a vertex
shader and returns the empty string as object code; the compile succeeded, yet the
translated source is empty and `isCompiled()` is false. -/
theorem isCompiled_iff_compile_succeeded_counterexample :
    ¬ ((VertexShader.run false (VertexShader.new 1)
          [ShaderCall.setSource 1 ["void main() {}"] [],
           ShaderCall.compile 2 emptyCodeTranslation]).isCompiled = true ↔
        compileSucceeds 2 emptyCodeTranslation = true) := by
  decide

/-- C9 (amended): after each compile in any sequence of `setSource` and `compile` calls,
on either stage and for every answer of the translator, `isCompiled()` is true if and only
if the compile succeeded (the translator reported success and the version gate did not
fire) and the text stored as translated source is non-empty, which it is in a `_DEBUG`
build and, in a release build, when the object code is non-empty. -/
theorem isCompiled_iff_succeeded_and_code_nonempty
    (stdSort : (PackedVarying → PackedVarying → Bool) → List PackedVarying →
      List PackedVarying)
    (GL_STRUCT_ANGLEX : GLenum) (VariableSortOrder : GLenum → Int) (debugBuild : Bool)
    (vertexShader : VertexShader) (fragmentShader : FragmentShader)
    (calls : List ShaderCall) (clientVersion : Int) (translation : Translation) :
    ((VertexShader.run debugBuild vertexShader
        (calls ++ [ShaderCall.compile clientVersion translation])).isCompiled = true ↔
      compileSucceeds clientVersion translation = true ∧
        (debugBuild = true ∨ translation.objectCode ≠ "")) ∧
    ((FragmentShader.run stdSort GL_STRUCT_ANGLEX VariableSortOrder debugBuild fragmentShader
        (calls ++ [ShaderCall.compile clientVersion translation])).isCompiled = true ↔
      compileSucceeds clientVersion translation = true ∧
        (debugBuild = true ∨ translation.objectCode ≠ "")) := by
  constructor
  · rw [VertexShader.run, List.foldl_append, List.foldl_cons, List.foldl_nil,
      VertexShader.call, isCompiled_iff, vertexCompile_hlsl]
    exact compiled_hlsl_ne_empty_iff _ _ _ _
  · rw [FragmentShader.run, List.foldl_append, List.foldl_cons, List.foldl_nil,
      FragmentShader.call, isCompiled_iff, fragmentCompile_hlsl]
    exact compiled_hlsl_ne_empty_iff _ _ _ _

/-- C10 (counterexample): a vertex shader is compiled successfully and then given a new
source; immediately after that `setSource` the translated source is still there and
`isCompiled()` is still true. -/
theorem setSource_resets_compiled_state_counterexample :
    ¬ ((VertexShader.run false (VertexShader.new 1)
          [ShaderCall.setSource 1 ["void main() {}"] [],
           ShaderCall.compile 2 sampleTranslation,
           ShaderCall.setSource 1 ["void main() { gl_Position = vec4(0.0); }"] []]).mHlsl
          = "" ∧
        (VertexShader.run false (VertexShader.new 1)
          [ShaderCall.setSource 1 ["void main() {}"] [],
           ShaderCall.compile 2 sampleTranslation,
           ShaderCall.setSource 1 ["void main() { gl_Position = vec4(0.0); }"] []]).isCompiled
          = false) := by
  decide

theorem vertexRun_not_compiled (debugBuild : Bool) (calls : List ShaderCall) :
    ∀ (s : VertexShader), s.isCompiled = false →
      (∀ clientVersion translation, ShaderCall.compile clientVersion translation ∈ calls →
        compileSucceeds clientVersion translation = false) →
      (VertexShader.run debugBuild s calls).isCompiled = false := by
  induction calls with
  | nil => intro s hs _; exact hs
  | cons call rest ih =>
    intro s hs hfail
    rw [VertexShader.run, List.foldl_cons]
    apply ih
    · cases call with
      | setSource count string length => exact hs
      | compile clientVersion translation =>
        have hf := hfail clientVersion translation (List.mem_cons_self _ _)
        have hh := vertexCompile_hlsl debugBuild clientVersion s translation
        rw [compileToHLSL_hlsl] at hh
        simp [VertexShader.call, Shader.isCompiled, hh, hf]
    · intro clientVersion translation hmem
      exact hfail clientVersion translation (List.mem_cons_of_mem _ hmem)

theorem fragmentRun_not_compiled
    (stdSort : (PackedVarying → PackedVarying → Bool) → List PackedVarying →
      List PackedVarying)
    (structType : GLenum) (sortOrder : GLenum → Int) (debugBuild : Bool)
    (calls : List ShaderCall) :
    ∀ (s : FragmentShader), s.isCompiled = false →
      (∀ clientVersion translation, ShaderCall.compile clientVersion translation ∈ calls →
        compileSucceeds clientVersion translation = false) →
      (FragmentShader.run stdSort structType sortOrder debugBuild s calls).isCompiled
        = false := by
  induction calls with
  | nil => intro s hs _; exact hs
  | cons call rest ih =>
    intro s hs hfail
    rw [FragmentShader.run, List.foldl_cons]
    apply ih
    · cases call with
      | setSource count string length => exact hs
      | compile clientVersion translation =>
        have hf := hfail clientVersion translation (List.mem_cons_self _ _)
        have hh := fragmentCompile_hlsl stdSort structType sortOrder debugBuild clientVersion
          s translation
        rw [compileToHLSL_hlsl] at hh
        simp [FragmentShader.call, Shader.isCompiled, hh, hf]
    · intro clientVersion translation hmem
      exact hfail clientVersion translation (List.mem_cons_of_mem _ hmem)

/-- C10 (amended): `setSource` replaces the source text and nothing else, so immediately
after it the translated source and `isCompiled()` are what they were before the call; and
on either stage, when `isCompiled()` is false (as on a fresh shader or after a failed
compile), it stays false over every sequence of `setSource` calls and unsuccessful compiles,
that is until the next successful compile. -/
theorem setSource_keeps_compiled_state
    (stdSort : (PackedVarying → PackedVarying → Bool) → List PackedVarying →
      List PackedVarying)
    (GL_STRUCT_ANGLEX : GLenum) (VariableSortOrder : GLenum → Int) (debugBuild : Bool)
    (s : Shader) (count : Int) (string : List String) (length : List Int) :
    (s.setSource count string length).mHlsl = s.mHlsl ∧
    (s.setSource count string length).isCompiled = s.isCompiled ∧
    s.setSource count string length = { s with mSource := (s.setSource count string length).mSource } ∧
    (∀ (vertexShader : VertexShader) (calls : List ShaderCall),
      vertexShader.isCompiled = false →
      (∀ clientVersion translation, ShaderCall.compile clientVersion translation ∈ calls →
        compileSucceeds clientVersion translation = false) →
      (VertexShader.run debugBuild vertexShader calls).isCompiled = false) ∧
    (∀ (fragmentShader : FragmentShader) (calls : List ShaderCall),
      fragmentShader.isCompiled = false →
      (∀ clientVersion translation, ShaderCall.compile clientVersion translation ∈ calls →
        compileSucceeds clientVersion translation = false) →
      (FragmentShader.run stdSort GL_STRUCT_ANGLEX VariableSortOrder debugBuild fragmentShader
        calls).isCompiled = false) :=
  ⟨rfl, rfl, rfl, fun vs calls => vertexRun_not_compiled debugBuild calls vs,
    fun fs calls =>
      fragmentRun_not_compiled stdSort GL_STRUCT_ANGLEX VariableSortOrder debugBuild calls fs⟩

/-- C10 (amended), on a fresh vertex shader: after a rejected compile and a new source
`isCompiled()` is still false. -/
theorem setSource_keeps_compiled_state_witness :
    (VertexShader.run false (VertexShader.new 1)
      [ShaderCall.compile 2 rejectedTranslation,
       ShaderCall.setSource 1 ["void main() {}"] []]).isCompiled = false :=
  (setSource_keeps_compiled_state insertionSort sampleStructType sampleSortOrder false
      (Shader.new 1) 1 ["void main() {}"] []).2.2.2.1
    (VertexShader.new 1)
    [ShaderCall.compile 2 rejectedTranslation, ShaderCall.setSource 1 ["void main() {}"] []]
    (by decide)
    (by
      intro clientVersion translation hmem
      simp only [List.mem_cons, List.mem_singleton, ShaderCall.compile.injEq,
        List.not_mem_nil, or_false] at hmem
      rcases hmem with ⟨rfl, rfl⟩ | h
      · decide
      · cases h)

/-! ## Reference counting -/

theorem toUInt32_lt (x : Nat) : toUInt32 x < 2 ^ 32 := by
  unfold toUInt32
  exact Nat.mod_lt _ (by norm_num)

theorem decUInt32_lt (x : Nat) (hx : x < 2 ^ 32) : decUInt32 x < 2 ^ 32 := by
  unfold decUInt32
  norm_num at hx ⊢
  split <;> omega

theorem refCall_preserves (s : Shader) (call : RefCall) (hs : s.mRefCount < 2 ^ 32) :
    (s.refCall call).1.mRefCount < 2 ^ 32 ∧ (s.refCall call).1.mHandle = s.mHandle := by
  cases call
  · exact ⟨toUInt32_lt (s.mRefCount + 1), rfl⟩
  · exact ⟨decUInt32_lt s.mRefCount hs, rfl⟩
  · exact ⟨hs, rfl⟩

theorem refTrace_steps (calls : List RefCall) :
    ∀ (s : Shader), s.mRefCount < 2 ^ 32 →
      ∀ step ∈ Shader.refTrace s calls,
        step.before.mHandle = s.mHandle ∧ step.before.mRefCount < 2 ^ 32 ∧
        step.deleted = (step.before.refCall step.call).2 ∧
        step.after = (step.before.refCall step.call).1 := by
  induction calls with
  | nil => intro s _ step hstep; cases hstep
  | cons call rest ih =>
    intro s hs step hstep
    rw [Shader.refTrace] at hstep
    rcases List.mem_cons.1 hstep with rfl | hrest
    · exact ⟨rfl, hs, rfl, rfl⟩
    · have hnext := refCall_preserves s call hs
      obtain ⟨h1, h2, h3, h4⟩ := ih _ hnext.1 step hrest
      exact ⟨h1.trans hnext.2, h2, h3, h4⟩

theorem refCall_deleted (s : Shader) (call : RefCall) (hs : s.mRefCount < 2 ^ 32) :
    ((s.refCall call).2 = [s.mHandle] ↔
      call = RefCall.release ∧ s.mRefCount = 1 ∧ (s.refCall call).1.mRefCount = 0 ∧
        s.mDeleteStatus = true) ∧
    ((s.refCall call).2 = [] ∨ (s.refCall call).2 = [s.mHandle]) := by
  cases call
  · simp [Shader.refCall]
  · simp only [Shader.refCall, Shader.release]
    by_cases h1 : s.mRefCount = 1
    · have h0 : decUInt32 1 = 0 := rfl
      cases hd : s.mDeleteStatus <;> simp [h0, h1, hd]
    · have h0 : decUInt32 s.mRefCount ≠ 0 := by
        unfold decUInt32
        split <;> omega
      simp [h0, h1]
  · simp [Shader.refCall]

/-- C7: in every sequence of `addRef` / `release` / `flagForDeletion` calls on a fresh
shader, a call invokes `deleteShader(handle)` if and only if it is a `release` that takes
`mRefCount` from 1 to 0 while the deletion flag is set, and it invokes it at most once;
`addRef` and `flagForDeletion` never invoke it. The sequences `[addRef, flag, release]` and
`[addRef, addRef, release, flag, release]` invoke it once, at the final release. (The
restriction to sequences without a `release` at count 0 is not needed for this.) -/
theorem deleteShader_invoked_iff_release_to_zero_flagged (handle : GLuint)
    (calls : List RefCall) :
    (∀ step ∈ Shader.refTrace (Shader.new handle) calls,
      (step.deleted = [handle] ↔
        step.call = RefCall.release ∧ step.before.mRefCount = 1 ∧
          step.after.mRefCount = 0 ∧ step.before.mDeleteStatus = true) ∧
      (step.deleted = [] ∨ step.deleted = [handle]) ∧
      (step.call ≠ RefCall.release → step.deleted = [])) ∧
    (Shader.refTrace (Shader.new handle)
        [RefCall.addRef, RefCall.flagForDeletion, RefCall.release]).map
      (fun step => step.deleted) = [[], [], [handle]] ∧
    (Shader.refTrace (Shader.new handle)
        [RefCall.addRef, RefCall.addRef, RefCall.release, RefCall.flagForDeletion,
          RefCall.release]).map
      (fun step => step.deleted) = [[], [], [], [], [handle]] := by
  refine ⟨?_, ?_, ?_⟩
  · intro step hstep
    have hfresh : (Shader.new handle).mRefCount < 2 ^ 32 := by
      show (0 : Nat) < 2 ^ 32
      norm_num
    obtain ⟨hh, hlt, hdel, hafter⟩ := refTrace_steps calls _ hfresh step hstep
    have hhandle : step.before.mHandle = handle := hh
    have hcall := refCall_deleted step.before step.call hlt
    rw [← hdel, ← hafter, hhandle] at hcall
    refine ⟨hcall.1, hcall.2, ?_⟩
    intro hne
    rcases hcall.2 with h | h
    · exact h
    · exact absurd (hcall.1.1 h).1 hne
  · simp [Shader.refTrace, Shader.refCall, Shader.release, Shader.addRef,
      Shader.flagForDeletion, Shader.new, Shader.uncompile, toUInt32, decUInt32]
  · simp [Shader.refTrace, Shader.refCall, Shader.release, Shader.addRef,
      Shader.flagForDeletion, Shader.new, Shader.uncompile, toUInt32, decUInt32]

/-- C7, on handle 7: the calls `addRef, addRef, release, flagForDeletion, release` pass
handle 7 to `deleteShader` at the last call only. -/
theorem deleteShader_invoked_iff_release_to_zero_flagged_witness :
    (Shader.refTrace (Shader.new 7)
        [RefCall.addRef, RefCall.addRef, RefCall.release, RefCall.flagForDeletion,
          RefCall.release]).map
      (fun step => step.deleted) = [[], [], [], [], [7]] :=
  (deleteShader_invoked_iff_release_to_zero_flagged 7 []).2.2

/-- C8 (counterexample): `release()` on a fresh shader, whose count is 0, leaves
`getRefCount()` at 4294967295 and not at 0. -/
theorem release_at_zero_wraps_counterexample :
    (Shader.new 1).getRefCount = 0 ∧
    ((Shader.new 1).release).1.getRefCount = 4294967295 ∧
    ((Shader.new 1).release).1.getRefCount ≠ 0 := by
  simp [Shader.release, Shader.new, Shader.uncompile, Shader.getRefCount, decUInt32]

/-- C8 (amended): `release()` on a shader whose count is 0 wraps `mRefCount` around to
4294967295, changes no other member and does not invoke the deletion callback. -/
theorem release_at_zero_wraps (s : Shader) (hzero : s.mRefCount = 0) :
    s.release = ({ s with mRefCount := 4294967295 }, []) := by
  simp [Shader.release, hzero, decUInt32]

/-- C8 (amended), on a fresh shader that is flagged for deletion. -/
theorem release_at_zero_wraps_witness :
    ((Shader.new 1).flagForDeletion).release =
      ({ (Shader.new 1).flagForDeletion with mRefCount := 4294967295 }, []) :=
  release_at_zero_wraps ((Shader.new 1).flagForDeletion) rfl

/-! ## Compile outcomes -/

/-- C11 (evaluation at the failing input): a vertex shader is compiled successfully with
the active uniform `u` (register 3) and the active interface block `B` (register 1), then
compiled again with a source the translator rejects. After the failed compile both active
lists are empty, yet the uniform register map still holds `u` and the interface-block
register map still holds `B`. -/
theorem register_maps_keep_stale_entries :
    (VertexShader.run false (VertexShader.new 1)
      [ShaderCall.compile 2 uniformTranslation,
       ShaderCall.compile 2 rejectedTranslation]).mActiveUniforms = [] ∧
    (VertexShader.run false (VertexShader.new 1)
      [ShaderCall.compile 2 uniformTranslation,
       ShaderCall.compile 2 rejectedTranslation]).mActiveInterfaceBlocks = [] ∧
    (VertexShader.run false (VertexShader.new 1)
      [ShaderCall.compile 2 uniformTranslation,
       ShaderCall.compile 2 rejectedTranslation]).mUniformRegisterMap "u" = some 3 ∧
    (VertexShader.run false (VertexShader.new 1)
      [ShaderCall.compile 2 uniformTranslation,
       ShaderCall.compile 2 rejectedTranslation]).mInterfaceBlockRegisterMap "B" = some 1 := by
  decide

theorem compileToHLSL_rejected (debugBuild : Bool) (clientVersion : Int) (s : Shader)
    (t : Translation) (hgate : ¬ (t.shaderVersion = 300 ∧ clientVersion < 3))
    (hres : t.result = 0) :
    s.compileToHLSL debugBuild clientVersion t =
      { s with mShaderVersion := toInt32 t.shaderVersion, mInfoLog := t.infoLog } := by
  unfold Shader.compileToHLSL
  simp only []
  rw [if_neg hgate, if_neg (not_not.2 hres)]

theorem compileToHLSL_gate (debugBuild : Bool) (clientVersion : Int) (s : Shader)
    (t : Translation) (hgate : t.shaderVersion = 300 ∧ clientVersion < 3) :
    s.compileToHLSL debugBuild clientVersion t =
      { s with
        mShaderVersion := toInt32 t.shaderVersion
        mInfoLog := "GLSL ES 3.00 is not supported by OpenGL ES 2.0 contexts" } := by
  unfold Shader.compileToHLSL
  simp only []
  rw [if_pos hgate]

theorem vertexCompile_of_failed (debugBuild : Bool) (clientVersion : Int)
    (s : VertexShader) (t : Translation) (log : String)
    (h : s.toShader.uncompile.compileToHLSL debugBuild clientVersion t =
      { s.toShader.uncompile with mShaderVersion := toInt32 t.shaderVersion, mInfoLog := log }) :
    s.compile debugBuild clientVersion t =
      { toShader :=
          { s.toShader.uncompile with
            mShaderVersion := toInt32 t.shaderVersion, mInfoLog := log }
        mActiveAttributes := [] } := by
  unfold VertexShader.compile VertexShader.uncompile
  simp only []
  rw [h]
  simp [VertexShader.parseAttributes, Shader.parseVaryings, Shader.getHLSL, Shader.uncompile]

theorem fragmentCompile_of_failed
    (stdSort : (PackedVarying → PackedVarying → Bool) → List PackedVarying →
      List PackedVarying)
    (structType : GLenum) (sortOrder : GLenum → Int)
    (hsort : ∀ comp, stdSort comp [] = [])
    (debugBuild : Bool) (clientVersion : Int)
    (s : FragmentShader) (t : Translation) (log : String)
    (h : s.toShader.uncompile.compileToHLSL debugBuild clientVersion t =
      { s.toShader.uncompile with mShaderVersion := toInt32 t.shaderVersion, mInfoLog := log }) :
    s.compile stdSort structType sortOrder debugBuild clientVersion t =
      { toShader :=
          { s.toShader.uncompile with
            mShaderVersion := toInt32 t.shaderVersion, mInfoLog := log }
        mActiveOutputVariables := [] } := by
  unfold FragmentShader.compile FragmentShader.uncompile
  simp only []
  rw [h]
  simp [Shader.parseVaryings, Shader.getHLSL, Shader.uncompile, hsort]


/-- C12: when the translator rejects the source and the version gate does not fire, then
after compile, from any prior state of a vertex shader and of a fragment shader, the
translated source is empty, the info log is the translator's diagnostic log, and the active
uniforms, active interface blocks, varyings and attributes / output variables are empty.
(`std::sort` is taken to leave an empty range empty.) -/
theorem compile_rejected_state
    (stdSort : (PackedVarying → PackedVarying → Bool) → List PackedVarying →
      List PackedVarying)
    (GL_STRUCT_ANGLEX : GLenum) (VariableSortOrder : GLenum → Int)
    (hsort : ∀ comp, stdSort comp [] = [])
    (debugBuild : Bool) (clientVersion : Int)
    (vertexShader : VertexShader) (fragmentShader : FragmentShader)
    (translation : Translation)
    (hgate : ¬ (translation.shaderVersion = 300 ∧ clientVersion < 3))
    (hrejected : translation.result = 0) :
    ((vertexShader.compile debugBuild clientVersion translation).mHlsl = "" ∧
      (vertexShader.compile debugBuild clientVersion translation).mInfoLog
        = translation.infoLog ∧
      (vertexShader.compile debugBuild clientVersion translation).mActiveUniforms = [] ∧
      (vertexShader.compile debugBuild clientVersion translation).mActiveInterfaceBlocks
        = [] ∧
      (vertexShader.compile debugBuild clientVersion translation).mVaryings = [] ∧
      (vertexShader.compile debugBuild clientVersion translation).mActiveAttributes = []) ∧
    ((fragmentShader.compile stdSort GL_STRUCT_ANGLEX VariableSortOrder debugBuild
        clientVersion translation).mHlsl = "" ∧
      (fragmentShader.compile stdSort GL_STRUCT_ANGLEX VariableSortOrder debugBuild
        clientVersion translation).mInfoLog = translation.infoLog ∧
      (fragmentShader.compile stdSort GL_STRUCT_ANGLEX VariableSortOrder debugBuild
        clientVersion translation).mActiveUniforms = [] ∧
      (fragmentShader.compile stdSort GL_STRUCT_ANGLEX VariableSortOrder debugBuild
        clientVersion translation).mActiveInterfaceBlocks = [] ∧
      (fragmentShader.compile stdSort GL_STRUCT_ANGLEX VariableSortOrder debugBuild
        clientVersion translation).mVaryings = [] ∧
      (fragmentShader.compile stdSort GL_STRUCT_ANGLEX VariableSortOrder debugBuild
        clientVersion translation).mActiveOutputVariables = []) := by
  rw [vertexCompile_of_failed debugBuild clientVersion vertexShader translation _
      (compileToHLSL_rejected debugBuild clientVersion _ translation hgate hrejected),
    fragmentCompile_of_failed stdSort GL_STRUCT_ANGLEX VariableSortOrder hsort debugBuild
      clientVersion fragmentShader translation _
      (compileToHLSL_rejected debugBuild clientVersion _ translation hgate hrejected)]
  exact ⟨⟨rfl, rfl, rfl, rfl, rfl, rfl⟩, ⟨rfl, rfl, rfl, rfl, rfl, rfl⟩⟩

/-- C12, on shaders that were compiled successfully before: the rejected compile leaves
the translator's diagnostic as info log and no attribute or varying. -/
theorem compile_rejected_state_witness :
    ((VertexShader.compile false 2 (VertexShader.compile false 2 (VertexShader.new 1)
        uniformTranslation) rejectedTranslation).mInfoLog = "ERROR: 0:1: syntax error" ∧
      (VertexShader.compile false 2 (VertexShader.compile false 2 (VertexShader.new 1)
        uniformTranslation) rejectedTranslation).mActiveAttributes = []) ∧
    (FragmentShader.compile insertionSort sampleStructType sampleSortOrder false 2
      (FragmentShader.compile insertionSort sampleStructType sampleSortOrder false 2
        (FragmentShader.new 2) sampleTranslation) rejectedTranslation).mVaryings = [] :=
  have h := compile_rejected_state insertionSort sampleStructType sampleSortOrder
    (fun _ => rfl) false 2
    (VertexShader.compile false 2 (VertexShader.new 1) uniformTranslation)
    (FragmentShader.compile insertionSort sampleStructType sampleSortOrder false 2
      (FragmentShader.new 2) sampleTranslation)
    rejectedTranslation (by decide) (by decide)
  ⟨⟨h.1.2.1, h.1.2.2.2.2.2⟩, h.2.2.2.2.2.1⟩

/-- C13: whenever the translator detects version 300 and the client version is below 3,
then after compile, whatever result the translator reported and from any prior state of
either stage, the info log is the fixed message, the translated source is empty,
`isCompiled()` is false and every active-variable list is empty. (`std::sort` is taken to
leave an empty range empty.) -/
theorem compile_version_gate_state
    (stdSort : (PackedVarying → PackedVarying → Bool) → List PackedVarying →
      List PackedVarying)
    (GL_STRUCT_ANGLEX : GLenum) (VariableSortOrder : GLenum → Int)
    (hsort : ∀ comp, stdSort comp [] = [])
    (debugBuild : Bool) (clientVersion : Int)
    (vertexShader : VertexShader) (fragmentShader : FragmentShader)
    (translation : Translation)
    (hversion : translation.shaderVersion = 300) (hclient : clientVersion < 3) :
    ((vertexShader.compile debugBuild clientVersion translation).mInfoLog
        = "GLSL ES 3.00 is not supported by OpenGL ES 2.0 contexts" ∧
      (vertexShader.compile debugBuild clientVersion translation).mHlsl = "" ∧
      (vertexShader.compile debugBuild clientVersion translation).isCompiled = false ∧
      (vertexShader.compile debugBuild clientVersion translation).mActiveUniforms = [] ∧
      (vertexShader.compile debugBuild clientVersion translation).mActiveInterfaceBlocks
        = [] ∧
      (vertexShader.compile debugBuild clientVersion translation).mVaryings = [] ∧
      (vertexShader.compile debugBuild clientVersion translation).mActiveAttributes = []) ∧
    ((fragmentShader.compile stdSort GL_STRUCT_ANGLEX VariableSortOrder debugBuild
        clientVersion translation).mInfoLog
        = "GLSL ES 3.00 is not supported by OpenGL ES 2.0 contexts" ∧
      (fragmentShader.compile stdSort GL_STRUCT_ANGLEX VariableSortOrder debugBuild
        clientVersion translation).mHlsl = "" ∧
      (fragmentShader.compile stdSort GL_STRUCT_ANGLEX VariableSortOrder debugBuild
        clientVersion translation).isCompiled = false ∧
      (fragmentShader.compile stdSort GL_STRUCT_ANGLEX VariableSortOrder debugBuild
        clientVersion translation).mActiveUniforms = [] ∧
      (fragmentShader.compile stdSort GL_STRUCT_ANGLEX VariableSortOrder debugBuild
        clientVersion translation).mActiveInterfaceBlocks = [] ∧
      (fragmentShader.compile stdSort GL_STRUCT_ANGLEX VariableSortOrder debugBuild
        clientVersion translation).mVaryings = [] ∧
      (fragmentShader.compile stdSort GL_STRUCT_ANGLEX VariableSortOrder debugBuild
        clientVersion translation).mActiveOutputVariables = []) := by
  rw [vertexCompile_of_failed debugBuild clientVersion vertexShader translation _
      (compileToHLSL_gate debugBuild clientVersion _ translation ⟨hversion, hclient⟩),
    fragmentCompile_of_failed stdSort GL_STRUCT_ANGLEX VariableSortOrder hsort debugBuild
      clientVersion fragmentShader translation _
      (compileToHLSL_gate debugBuild clientVersion _ translation ⟨hversion, hclient⟩)]
  exact ⟨⟨rfl, rfl, rfl, rfl, rfl, rfl, rfl⟩, ⟨rfl, rfl, rfl, rfl, rfl, rfl, rfl⟩⟩

/-- C13, with a translator that reports success for a version-300 shader in a client
version 2 context. -/
theorem compile_version_gate_state_witness :
    version300Translation.result = 1 ∧
    (VertexShader.compile false 2 (VertexShader.new 1) version300Translation).mInfoLog
      = "GLSL ES 3.00 is not supported by OpenGL ES 2.0 contexts" ∧
    (FragmentShader.compile insertionSort sampleStructType sampleSortOrder false 2
      (FragmentShader.new 2) version300Translation).isCompiled = false :=
  have h := compile_version_gate_state insertionSort sampleStructType sampleSortOrder
    (fun _ => rfl) false 2 (VertexShader.new 1) (FragmentShader.new 2)
    version300Translation rfl (by decide)
  ⟨rfl, h.1.1, h.2.2.2.1⟩

/-! ## Register maps, version and usage flags after a compile -/

theorem fillRegisterMap_apply (query : String → Option Nat) (names : List String) :
    ∀ (map : RegisterMap) (name : String),
      fillRegisterMap query names map name =
        if name ∈ names then some (registerIndex query name) else map name := by
  induction names with
  | nil => intro map name; simp [fillRegisterMap]
  | cons first rest ih =>
    intro map name
    have hstep : fillRegisterMap query (first :: rest) map =
        fillRegisterMap query rest (map.assign first (registerIndex query first)) := rfl
    rw [hstep, ih]
    by_cases hrest : name ∈ rest
    · simp [hrest]
    · by_cases hfirst : name = first
      · simp [hfirst, RegisterMap.assign]
      · simp [hrest, hfirst, RegisterMap.assign]

theorem parseVaryings_frame (s : Shader) (t : Translation) :
    (s.parseVaryings t).mInfoLog = s.mInfoLog ∧
    (s.parseVaryings t).mShaderVersion = s.mShaderVersion ∧
    (s.parseVaryings t).mActiveUniforms = s.mActiveUniforms ∧
    (s.parseVaryings t).mActiveInterfaceBlocks = s.mActiveInterfaceBlocks ∧
    (s.parseVaryings t).mUniformRegisterMap = s.mUniformRegisterMap ∧
    (s.parseVaryings t).mInterfaceBlockRegisterMap = s.mInterfaceBlockRegisterMap := by
  unfold Shader.parseVaryings
  split <;> exact ⟨rfl, rfl, rfl, rfl, rfl, rfl⟩

theorem vertexCompile_frame (debugBuild : Bool) (clientVersion : Int) (s : VertexShader)
    (t : Translation) :
    (s.compile debugBuild clientVersion t).mInfoLog =
      (s.toShader.uncompile.compileToHLSL debugBuild clientVersion t).mInfoLog ∧
    (s.compile debugBuild clientVersion t).mShaderVersion =
      (s.toShader.uncompile.compileToHLSL debugBuild clientVersion t).mShaderVersion ∧
    (s.compile debugBuild clientVersion t).mActiveUniforms =
      (s.toShader.uncompile.compileToHLSL debugBuild clientVersion t).mActiveUniforms ∧
    (s.compile debugBuild clientVersion t).mActiveInterfaceBlocks =
      (s.toShader.uncompile.compileToHLSL debugBuild clientVersion t).mActiveInterfaceBlocks ∧
    (s.compile debugBuild clientVersion t).mUniformRegisterMap =
      (s.toShader.uncompile.compileToHLSL debugBuild clientVersion t).mUniformRegisterMap ∧
    (s.compile debugBuild clientVersion t).mInterfaceBlockRegisterMap =
      (s.toShader.uncompile.compileToHLSL debugBuild clientVersion
        t).mInterfaceBlockRegisterMap := by
  unfold VertexShader.compile VertexShader.parseAttributes VertexShader.uncompile
  simp only []
  split <;> exact parseVaryings_frame _ _

theorem fragmentCompile_frame
    (stdSort : (PackedVarying → PackedVarying → Bool) → List PackedVarying →
      List PackedVarying)
    (structType : GLenum) (sortOrder : GLenum → Int)
    (debugBuild : Bool) (clientVersion : Int) (s : FragmentShader) (t : Translation) :
    (s.compile stdSort structType sortOrder debugBuild clientVersion t).mInfoLog =
      (s.toShader.uncompile.compileToHLSL debugBuild clientVersion t).mInfoLog ∧
    (s.compile stdSort structType sortOrder debugBuild clientVersion t).mShaderVersion =
      (s.toShader.uncompile.compileToHLSL debugBuild clientVersion t).mShaderVersion ∧
    (s.compile stdSort structType sortOrder debugBuild clientVersion t).mActiveUniforms =
      (s.toShader.uncompile.compileToHLSL debugBuild clientVersion t).mActiveUniforms ∧
    (s.compile stdSort structType sortOrder debugBuild clientVersion
        t).mActiveInterfaceBlocks =
      (s.toShader.uncompile.compileToHLSL debugBuild clientVersion t).mActiveInterfaceBlocks ∧
    (s.compile stdSort structType sortOrder debugBuild clientVersion t).mUniformRegisterMap =
      (s.toShader.uncompile.compileToHLSL debugBuild clientVersion t).mUniformRegisterMap ∧
    (s.compile stdSort structType sortOrder debugBuild clientVersion
        t).mInterfaceBlockRegisterMap =
      (s.toShader.uncompile.compileToHLSL debugBuild clientVersion
        t).mInterfaceBlockRegisterMap := by
  unfold FragmentShader.compile FragmentShader.uncompile
  simp only []
  split <;> exact parseVaryings_frame _ _

theorem compileToHLSL_succeeded (debugBuild : Bool) (clientVersion : Int) (s : Shader)
    (t : Translation) (hok : compileSucceeds clientVersion t = true) :
    (s.compileToHLSL debugBuild clientVersion t).mActiveUniforms = t.uniforms ∧
    (s.compileToHLSL debugBuild clientVersion t).mActiveInterfaceBlocks = t.interfaceBlocks ∧
    (s.compileToHLSL debugBuild clientVersion t).mUniformRegisterMap =
      fillRegisterMap t.uniformRegister (t.uniforms.map (fun uniform => uniform.name))
        s.mUniformRegisterMap ∧
    (s.compileToHLSL debugBuild clientVersion t).mInterfaceBlockRegisterMap =
      fillRegisterMap t.interfaceBlockRegister (t.interfaceBlocks.map (fun block => block.name))
        s.mInterfaceBlockRegisterMap ∧
    (s.compileToHLSL debugBuild clientVersion t).mInfoLog = s.mInfoLog := by
  simp only [compileSucceeds, decide_eq_true_eq] at hok
  unfold Shader.compileToHLSL
  simp only []
  rw [if_neg hok.1, if_pos hok.2]
  exact ⟨rfl, rfl, rfl, rfl, rfl⟩

theorem compileToHLSL_version (debugBuild : Bool) (clientVersion : Int) (s : Shader)
    (t : Translation) :
    (s.compileToHLSL debugBuild clientVersion t).mShaderVersion = toInt32 t.shaderVersion := by
  unfold Shader.compileToHLSL
  simp only []
  split
  · rfl
  · split <;> rfl

theorem registers_after_success (s : Shader) (debugBuild : Bool) (clientVersion : Int)
    (t : Translation) (hok : compileSucceeds clientVersion t = true) :
    (∀ uniform ∈ (s.compileToHLSL debugBuild clientVersion t).mActiveUniforms,
      (s.compileToHLSL debugBuild clientVersion t).getUniformRegister uniform.name =
        some (registerIndex t.uniformRegister uniform.name)) ∧
    (∀ block ∈ (s.compileToHLSL debugBuild clientVersion t).mActiveInterfaceBlocks,
      (s.compileToHLSL debugBuild clientVersion t).getInterfaceBlockRegister block.name =
        some (registerIndex t.interfaceBlockRegister block.name)) := by
  obtain ⟨hu, hb, hum, hbm, _⟩ := compileToHLSL_succeeded debugBuild clientVersion s t hok
  constructor
  · intro uniform hmem
    rw [hu] at hmem
    rw [Shader.getUniformRegister, hum, fillRegisterMap_apply,
      if_pos (List.mem_map.2 ⟨uniform, hmem, rfl⟩)]
  · intro block hmem
    rw [hb] at hmem
    rw [Shader.getInterfaceBlockRegister, hbm, fillRegisterMap_apply,
      if_pos (List.mem_map.2 ⟨block, hmem, rfl⟩)]

theorem registerIndex_of_some (query : String → Option Nat) (name : String) (register : Nat)
    (h : query name = some register) : registerIndex query name = register := by
  simp [registerIndex, h]

/-- C14: after a successful compile of either stage, for every active uniform the lookup
`getUniformRegister` finds an entry (its assertion does not fail) and, when the translator
reports a register for the name, returns that register; likewise `getInterfaceBlockRegister`
for every active interface block. -/
theorem register_lookup_after_successful_compile
    (stdSort : (PackedVarying → PackedVarying → Bool) → List PackedVarying →
      List PackedVarying)
    (GL_STRUCT_ANGLEX : GLenum) (VariableSortOrder : GLenum → Int)
    (debugBuild : Bool) (clientVersion : Int)
    (vertexShader : VertexShader) (fragmentShader : FragmentShader)
    (translation : Translation)
    (hok : compileSucceeds clientVersion translation = true) :
    (∀ uniform ∈ (vertexShader.compile debugBuild clientVersion translation).mActiveUniforms,
      ((vertexShader.compile debugBuild clientVersion translation).getUniformRegister
          uniform.name).isSome = true ∧
      ∀ register, translation.uniformRegister uniform.name = some register →
        (vertexShader.compile debugBuild clientVersion translation).getUniformRegister
          uniform.name = some register) ∧
    (∀ block ∈
        (vertexShader.compile debugBuild clientVersion translation).mActiveInterfaceBlocks,
      ((vertexShader.compile debugBuild clientVersion translation).getInterfaceBlockRegister
          block.name).isSome = true ∧
      ∀ register, translation.interfaceBlockRegister block.name = some register →
        (vertexShader.compile debugBuild clientVersion translation).getInterfaceBlockRegister
          block.name = some register) ∧
    (∀ uniform ∈ (fragmentShader.compile stdSort GL_STRUCT_ANGLEX VariableSortOrder
        debugBuild clientVersion translation).mActiveUniforms,
      ((fragmentShader.compile stdSort GL_STRUCT_ANGLEX VariableSortOrder debugBuild
        clientVersion translation).getUniformRegister uniform.name).isSome = true ∧
      ∀ register, translation.uniformRegister uniform.name = some register →
        (fragmentShader.compile stdSort GL_STRUCT_ANGLEX VariableSortOrder debugBuild
          clientVersion translation).getUniformRegister uniform.name = some register) ∧
    (∀ block ∈ (fragmentShader.compile stdSort GL_STRUCT_ANGLEX VariableSortOrder
        debugBuild clientVersion translation).mActiveInterfaceBlocks,
      ((fragmentShader.compile stdSort GL_STRUCT_ANGLEX VariableSortOrder debugBuild
        clientVersion translation).getInterfaceBlockRegister block.name).isSome = true ∧
      ∀ register, translation.interfaceBlockRegister block.name = some register →
        (fragmentShader.compile stdSort GL_STRUCT_ANGLEX VariableSortOrder debugBuild
          clientVersion translation).getInterfaceBlockRegister block.name
          = some register) := by
  obtain ⟨_, _, hvu, hvb, hvum, hvbm⟩ :=
    vertexCompile_frame debugBuild clientVersion vertexShader translation
  obtain ⟨_, _, hfu, hfb, hfum, hfbm⟩ :=
    fragmentCompile_frame stdSort GL_STRUCT_ANGLEX VariableSortOrder debugBuild clientVersion
      fragmentShader translation
  have hv := registers_after_success vertexShader.toShader.uncompile debugBuild clientVersion
    translation hok
  have hf := registers_after_success fragmentShader.toShader.uncompile debugBuild
    clientVersion translation hok
  simp only [Shader.getUniformRegister, Shader.getInterfaceBlockRegister] at hv hf ⊢
  rw [hvu, hvb, hvum, hvbm, hfu, hfb, hfum, hfbm]
  refine ⟨?_, ?_, ?_, ?_⟩
  · intro uniform hmem
    rw [hv.1 uniform hmem]
    exact ⟨rfl, fun register h => by rw [registerIndex_of_some _ _ _ h]⟩
  · intro block hmem
    rw [hv.2 block hmem]
    exact ⟨rfl, fun register h => by rw [registerIndex_of_some _ _ _ h]⟩
  · intro uniform hmem
    rw [hf.1 uniform hmem]
    exact ⟨rfl, fun register h => by rw [registerIndex_of_some _ _ _ h]⟩
  · intro block hmem
    rw [hf.2 block hmem]
    exact ⟨rfl, fun register h => by rw [registerIndex_of_some _ _ _ h]⟩

/-- C14, on a vertex shader compiled with the active uniform `u` in register 3 and the
active interface block `B` in register 1. -/
theorem register_lookup_after_successful_compile_witness :
    (VertexShader.compile false 2 (VertexShader.new 1) uniformTranslation).getUniformRegister
      "u" = some 3 ∧
    (VertexShader.compile false 2 (VertexShader.new 1)
      uniformTranslation).getInterfaceBlockRegister "B" = some 1 :=
  have h := register_lookup_after_successful_compile insertionSort sampleStructType
    sampleSortOrder false 2 (VertexShader.new 1) (FragmentShader.new 2) uniformTranslation
    (by decide)
  ⟨(h.1 { name := "u", type := GL_FLOAT_VEC4, arraySize := 1 } (by decide)).2 3 (by decide),
   (h.2.1 { name := "B" } (by decide)).2 1 (by decide)⟩

/-- C18: after every compile attempt of either stage (successful, rejected by the
translator or rejected by the version gate) `getShaderVersion()` is the version the
translator detected, converted to `int`, hence that version itself whenever it fits an
`int`; on a shader that was never compiled it is 100. -/
theorem getShaderVersion_after_compile
    (stdSort : (PackedVarying → PackedVarying → Bool) → List PackedVarying →
      List PackedVarying)
    (GL_STRUCT_ANGLEX : GLenum) (VariableSortOrder : GLenum → Int)
    (debugBuild : Bool) (clientVersion : Int)
    (vertexShader : VertexShader) (fragmentShader : FragmentShader)
    (translation : Translation) (handle : GLuint) :
    (vertexShader.compile debugBuild clientVersion translation).getShaderVersion
      = toInt32 translation.shaderVersion ∧
    (fragmentShader.compile stdSort GL_STRUCT_ANGLEX VariableSortOrder debugBuild
      clientVersion translation).getShaderVersion = toInt32 translation.shaderVersion ∧
    (translation.shaderVersion < 2 ^ 31 →
      (vertexShader.compile debugBuild clientVersion translation).getShaderVersion
        = translation.shaderVersion ∧
      (fragmentShader.compile stdSort GL_STRUCT_ANGLEX VariableSortOrder debugBuild
        clientVersion translation).getShaderVersion = translation.shaderVersion) ∧
    (VertexShader.new handle).getShaderVersion = 100 ∧
    (FragmentShader.new handle).getShaderVersion = 100 := by
  have hv : (vertexShader.compile debugBuild clientVersion translation).getShaderVersion
      = toInt32 translation.shaderVersion := by
    rw [Shader.getShaderVersion,
      (vertexCompile_frame debugBuild clientVersion vertexShader translation).2.1,
      compileToHLSL_version]
  have hf : (fragmentShader.compile stdSort GL_STRUCT_ANGLEX VariableSortOrder debugBuild
      clientVersion translation).getShaderVersion = toInt32 translation.shaderVersion := by
    rw [Shader.getShaderVersion,
      (fragmentCompile_frame stdSort GL_STRUCT_ANGLEX VariableSortOrder debugBuild
        clientVersion fragmentShader translation).2.1,
      compileToHLSL_version]
  refine ⟨hv, hf, ?_, rfl, rfl⟩
  intro hfit
  have hcast : toInt32 translation.shaderVersion = translation.shaderVersion := by
    apply toInt32_of_fits
    · have : (0 : Int) ≤ translation.shaderVersion := Int.natCast_nonneg _
      linarith
    · exact_mod_cast hfit
  rw [hv, hf, hcast]
  exact ⟨rfl, rfl⟩

/-- C18, for a version-300 shader rejected by the version gate and for a rejected
version-100 shader. -/
theorem getShaderVersion_after_compile_witness :
    (VertexShader.compile false 2 (VertexShader.new 1) version300Translation).getShaderVersion
      = 300 ∧
    (FragmentShader.compile insertionSort sampleStructType sampleSortOrder false 2
      (FragmentShader.new 2) rejectedTranslation).getShaderVersion = 100 :=
  ⟨((getShaderVersion_after_compile insertionSort sampleStructType sampleSortOrder false 2
      (VertexShader.new 1) (FragmentShader.new 2) version300Translation 1).2.2.1
        (by decide)).1,
   ((getShaderVersion_after_compile insertionSort sampleStructType sampleSortOrder false 2
      (VertexShader.new 1) (FragmentShader.new 2) rejectedTranslation 1).2.2.1
        (by decide)).2⟩

/-! ## Usage flags -/

theorem stringContains_iff_infix (text marker : String) :
    stringContains text marker = true ↔ List.IsInfix marker.data text.data := by
  unfold stringContains
  rw [List.any_eq_true, List.infix_iff_prefix_suffix]
  constructor
  · rintro ⟨rest, hmem, hpre⟩
    exact ⟨rest, List.isPrefixOf_iff_prefix.1 hpre, (List.mem_tails _ _).1 hmem⟩
  · rintro ⟨rest, hpre, hsuf⟩
    exact ⟨rest, (List.mem_tails _ _).2 hsuf, List.isPrefixOf_iff_prefix.2 hpre⟩

theorem uncompile_compileToHLSL_noUsageFlags (debugBuild : Bool) (clientVersion : Int)
    (s : Shader) (t : Translation) :
    (s.uncompile.compileToHLSL debugBuild clientVersion t).NoUsageFlags := by
  unfold Shader.compileToHLSL
  simp only []
  split
  · exact ⟨rfl, rfl, rfl, rfl, rfl, rfl, rfl, rfl, rfl, rfl, rfl⟩
  · split <;> exact ⟨rfl, rfl, rfl, rfl, rfl, rfl, rfl, rfl, rfl, rfl, rfl⟩

theorem parseVaryings_flagsFollowMarkers (s : Shader) (t : Translation) (succeeded : Bool)
    (hflags : s.NoUsageFlags) (hok : s.mHlsl ≠ "" → succeeded = true) :
    (s.parseVaryings t).FlagsFollowMarkers succeeded := by
  obtain ⟨h1, h2, h3, h4, h5, h6, h7, h8, h9, h10, h11⟩ := hflags
  unfold Shader.parseVaryings
  by_cases hempty : s.mHlsl = ""
  · rw [if_neg (not_not.2 hempty)]
    simp [Shader.FlagsFollowMarkers, h1, h2, h3, h4, h5, h6, h7, h8, h9, h10, h11, hempty,
      stringContains]
  · rw [if_pos hempty]
    simp [Shader.FlagsFollowMarkers, hok hempty]

theorem parseVaryings_noUsageFlags (s : Shader) (t : Translation)
    (hflags : s.NoUsageFlags) (hempty : s.mHlsl = "") :
    (s.parseVaryings t).NoUsageFlags := by
  unfold Shader.parseVaryings
  rw [if_neg (not_not.2 hempty)]
  exact hflags

theorem vertexCompile_toShader (debugBuild : Bool) (clientVersion : Int) (s : VertexShader)
    (t : Translation) :
    (s.compile debugBuild clientVersion t).toShader =
      (s.toShader.uncompile.compileToHLSL debugBuild clientVersion t).parseVaryings t := by
  unfold VertexShader.compile VertexShader.parseAttributes VertexShader.uncompile
  simp only []
  split <;> rfl

theorem fragmentCompile_flags
    (stdSort : (PackedVarying → PackedVarying → Bool) → List PackedVarying →
      List PackedVarying)
    (structType : GLenum) (sortOrder : GLenum → Int)
    (debugBuild : Bool) (clientVersion : Int) (s : FragmentShader) (t : Translation)
    (succeeded : Bool) :
    ((s.compile stdSort structType sortOrder debugBuild clientVersion t).FlagsFollowMarkers
        succeeded ↔
      ((s.toShader.uncompile.compileToHLSL debugBuild clientVersion t).parseVaryings
        t).FlagsFollowMarkers succeeded) ∧
    ((s.compile stdSort structType sortOrder debugBuild clientVersion t).NoUsageFlags ↔
      ((s.toShader.uncompile.compileToHLSL debugBuild clientVersion t).parseVaryings
        t).NoUsageFlags) := by
  unfold FragmentShader.compile FragmentShader.uncompile
  simp only []
  split <;> exact ⟨Iff.rfl, Iff.rfl⟩

/-- C20: after every compile of either stage, from any prior state, each usage flag is
true if and only if the compile succeeded and the flag's sentinel marker occurs in the
translated source (`stringContains`, which is the substring relation); after a failed
compile every flag is false. -/
theorem usage_flags_follow_markers
    (stdSort : (PackedVarying → PackedVarying → Bool) → List PackedVarying →
      List PackedVarying)
    (GL_STRUCT_ANGLEX : GLenum) (VariableSortOrder : GLenum → Int)
    (debugBuild : Bool) (clientVersion : Int)
    (vertexShader : VertexShader) (fragmentShader : FragmentShader)
    (translation : Translation) :
    (vertexShader.compile debugBuild clientVersion translation).FlagsFollowMarkers
      (compileSucceeds clientVersion translation) ∧
    (fragmentShader.compile stdSort GL_STRUCT_ANGLEX VariableSortOrder debugBuild
      clientVersion translation).FlagsFollowMarkers
      (compileSucceeds clientVersion translation) ∧
    (compileSucceeds clientVersion translation = false →
      (vertexShader.compile debugBuild clientVersion translation).NoUsageFlags ∧
      (fragmentShader.compile stdSort GL_STRUCT_ANGLEX VariableSortOrder debugBuild
        clientVersion translation).NoUsageFlags) ∧
    (∀ text marker : String,
      stringContains text marker = true ↔ List.IsInfix marker.data text.data) := by
  have hsucc : ∀ s : Shader,
      (s.uncompile.compileToHLSL debugBuild clientVersion translation).mHlsl ≠ "" →
        compileSucceeds clientVersion translation = true :=
    fun s h => ((compiled_hlsl_ne_empty_iff debugBuild clientVersion s translation).1 h).1
  have hfail : ∀ s : Shader, compileSucceeds clientVersion translation = false →
      (s.uncompile.compileToHLSL debugBuild clientVersion translation).mHlsl = "" := by
    intro s hf
    by_contra hne
    rw [hsucc s hne] at hf
    cases hf
  refine ⟨?_, ?_, ?_, stringContains_iff_infix⟩
  · rw [vertexCompile_toShader]
    exact parseVaryings_flagsFollowMarkers _ _ _
      (uncompile_compileToHLSL_noUsageFlags _ _ _ _) (hsucc _)
  · rw [(fragmentCompile_flags stdSort GL_STRUCT_ANGLEX VariableSortOrder debugBuild
      clientVersion fragmentShader translation _).1]
    exact parseVaryings_flagsFollowMarkers _ _ _
      (uncompile_compileToHLSL_noUsageFlags _ _ _ _) (hsucc _)
  · intro hf
    constructor
    · rw [vertexCompile_toShader]
      exact parseVaryings_noUsageFlags _ _
        (uncompile_compileToHLSL_noUsageFlags _ _ _ _) (hfail _ hf)
    · rw [(fragmentCompile_flags stdSort GL_STRUCT_ANGLEX VariableSortOrder debugBuild
        clientVersion fragmentShader translation true).2]
      exact parseVaryings_noUsageFlags _ _
        (uncompile_compileToHLSL_noUsageFlags _ _ _ _) (hfail _ hf)

/-- C20, on a fragment shader that had the discard-rewriting flag set by an earlier
compile and is then compiled with a rejected source. -/
theorem usage_flags_follow_markers_witness :
    (FragmentShader.compile insertionSort sampleStructType sampleSortOrder false 2
      (FragmentShader.new 2) discardTranslation).mUsesDiscardRewriting = true ∧
    (FragmentShader.compile insertionSort sampleStructType sampleSortOrder false 2
      (FragmentShader.compile insertionSort sampleStructType sampleSortOrder false 2
        (FragmentShader.new 2) discardTranslation) rejectedTranslation).NoUsageFlags :=
  ⟨by decide,
   ((usage_flags_follow_markers insertionSort sampleStructType sampleSortOrder false 2
      (VertexShader.new 1)
      (FragmentShader.compile insertionSort sampleStructType sampleSortOrder false 2
        (FragmentShader.new 2) discardTranslation) rejectedTranslation).2.2.1
      (by decide)).2⟩

/-! ## Text retrieval -/

theorem toInt32_natCast_of_fits (n : Nat) (h : n < 2 ^ 31) : toInt32 (n : Int) = n := by
  apply toInt32_of_fits
  · have : (0 : Int) ≤ n := Int.natCast_nonneg _
    linarith
  · exact_mod_cast h

theorem string_eq_empty_iff_length (text : String) : text = "" ↔ text.length = 0 := by
  constructor
  · intro h; rw [h]; rfl
  · intro h
    have hdata : text.data = [] := List.length_eq_zero.1 h
    cases text
    simp only at hdata
    subst hdata
    rfl

theorem getSourceImpl_retrievesText (text : String) (hfit : text.length + 1 < 2 ^ 31) :
    RetrievesText text (Shader.getSourceImpl text)
      (if text = "" then 0 else toInt32 (text.length + 1)) := by
  have hlen : toInt32 (text.length : Int) = text.length :=
    toInt32_natCast_of_fits _ (by omega)
  have hlen1 : toInt32 ((text.length : Int) + 1) = (text.length : Int) + 1 := by
    have h := toInt32_natCast_of_fits (text.length + 1) hfit
    push_cast at h
    exact h
  refine ⟨?_, ?_, ?_, ?_, ?_⟩
  · intro bufSize hpos
    unfold Shader.getSourceImpl
    rw [if_pos hpos, hlen]
  · intro bufSize hneg
    unfold Shader.getSourceImpl
    rw [if_neg (not_lt.2 hneg)]
  · by_cases hempty : text = ""
    · rw [if_pos hempty, if_pos hempty]
    · rw [if_neg hempty, if_neg hempty, hlen1]
  · intro hne
    rw [if_neg hne, hlen1]
    unfold Shader.getSourceImpl
    have hpos : (text.length : Int) + 1 > 0 := by
      have : (0 : Int) ≤ text.length := Int.natCast_nonneg _
      linarith
    rw [if_pos hpos, hlen]
    have hmin : min ((text.length : Int) + 1 - 1) (text.length : Int) = text.length := by
      simp
    rw [hmin, Int.toNat_natCast]
    have htake : List.take text.length text.data = text.data := List.take_length _
    rw [htake]
  · intro hempty
    rw [if_pos hempty]
    unfold Shader.getSourceImpl
    rw [if_neg (by decide)]

/-- C19: for each of the info log, the source and the translated source of a shader (texts
shorter than `2 ^ 31 - 1` characters, the range of `GLsizei`), retrieval into a buffer of
`bufSize > 0` writes the first `min (bufSize - 1) |t|` characters and a terminating NUL and
reports that count, retrieval with `bufSize <= 0` writes nothing and reports 0, the length
query gives 0 for the empty text and `|t| + 1` otherwise, and a buffer of the queried
length retrieves the whole text. -/
theorem text_retrieval_contract (s : Shader)
    (hInfoLog : s.mInfoLog.length + 1 < 2 ^ 31) (hSource : s.mSource.length + 1 < 2 ^ 31)
    (hHlsl : s.mHlsl.length + 1 < 2 ^ 31) :
    RetrievesText s.mInfoLog s.getInfoLog s.getInfoLogLength ∧
    RetrievesText s.mSource s.getSource s.getSourceLength ∧
    RetrievesText s.mHlsl s.getTranslatedSource s.getTranslatedSourceLength :=
  ⟨getSourceImpl_retrievesText s.mInfoLog hInfoLog,
   getSourceImpl_retrievesText s.mSource hSource,
   getSourceImpl_retrievesText s.mHlsl hHlsl⟩

/-- C19, on a vertex shader whose source is `void main() {}` (14 characters): a buffer
of 5 receives `void` and a NUL with reported length 4, the length query is 15, and a
buffer of 15 receives the whole source. -/
theorem text_retrieval_contract_witness :
    ((Shader.new 1).setSource 1 ["void main() {}"] []).getSource 5
      = (['v', 'o', 'i', 'd', Char.ofNat 0], 4) ∧
    ((Shader.new 1).setSource 1 ["void main() {}"] []).getSourceLength = 15 ∧
    ((Shader.new 1).setSource 1 ["void main() {}"] []).getSource 15
      = ("void main() {}".data ++ [Char.ofNat 0], 14) :=
  have h := (text_retrieval_contract ((Shader.new 1).setSource 1 ["void main() {}"] [])
    (by decide) (by decide) (by decide)).2.1
  have hlength : ((Shader.new 1).setSource 1 ["void main() {}"] []).getSourceLength = 15 :=
    h.2.2.1.trans (by decide)
  ⟨(h.1 5 (by decide)).trans (by decide), hlength,
   (hlength ▸ h.2.2.2.1 (by decide)).trans (by decide)⟩

/-! ## Repeated compilation -/

theorem fillRegisterMap_idem (query : String → Option Nat) (names : List String)
    (map : RegisterMap) :
    fillRegisterMap query names (fillRegisterMap query names map) =
      fillRegisterMap query names map := by
  funext name
  rw [fillRegisterMap_apply, fillRegisterMap_apply]
  split <;> rfl

theorem parseVaryings_uncompile (s : Shader) (t : Translation) (varyings : List PackedVarying) :
    ({ s.parseVaryings t with mVaryings := varyings }).uncompile = s.uncompile ∧
    (s.parseVaryings t).uncompile = s.uncompile := by
  unfold Shader.parseVaryings
  split <;> exact ⟨rfl, rfl⟩

theorem compileToHLSL_uncompile_of_failed (debugBuild : Bool) (clientVersion : Int)
    (s : Shader) (t : Translation) (hfailed : compileSucceeds clientVersion t = false) :
    (s.uncompile.compileToHLSL debugBuild clientVersion t).uncompile = s.uncompile := by
  by_cases hgate : t.shaderVersion = 300 ∧ clientVersion < 3
  · rw [compileToHLSL_gate debugBuild clientVersion _ t hgate]
    rfl
  · have hres : t.result = 0 := by
      by_contra hne
      have hok : compileSucceeds clientVersion t = true := by
        simp [compileSucceeds, hgate, hne]
      rw [hok] at hfailed
      cases hfailed
    rw [compileToHLSL_rejected debugBuild clientVersion _ t hgate hres]
    rfl

theorem compileToHLSL_of_succeeds (debugBuild : Bool) (clientVersion : Int) (s : Shader)
    (t : Translation) (hok : compileSucceeds clientVersion t = true) :
    s.compileToHLSL debugBuild clientVersion t =
      { s with
        mShaderVersion := toInt32 t.shaderVersion
        mHlsl :=
          if debugBuild then debugListing s.mSource ++ t.objectCode else t.objectCode
        mActiveUniforms := t.uniforms
        mUniformRegisterMap :=
          fillRegisterMap t.uniformRegister (t.uniforms.map (fun uniform => uniform.name))
            s.mUniformRegisterMap
        mActiveInterfaceBlocks := t.interfaceBlocks
        mInterfaceBlockRegisterMap :=
          fillRegisterMap t.interfaceBlockRegister
            (t.interfaceBlocks.map (fun block => block.name)) s.mInterfaceBlockRegisterMap } := by
  simp only [compileSucceeds, decide_eq_true_eq] at hok
  unfold Shader.compileToHLSL
  simp only []
  rw [if_neg hok.1, if_pos hok.2]

theorem compileToHLSL_twice (debugBuild : Bool) (clientVersion : Int) (s : Shader)
    (t : Translation) :
    (s.uncompile.compileToHLSL debugBuild clientVersion t).uncompile.compileToHLSL debugBuild
        clientVersion t =
      s.uncompile.compileToHLSL debugBuild clientVersion t := by
  cases hs : compileSucceeds clientVersion t
  · rw [compileToHLSL_uncompile_of_failed debugBuild clientVersion s t hs]
  · rw [compileToHLSL_of_succeeds debugBuild clientVersion _ t hs,
      compileToHLSL_of_succeeds debugBuild clientVersion _ t hs]
    simp only [Shader.uncompile, fillRegisterMap_idem]

theorem vertexCompile_congr (debugBuild : Bool) (clientVersion : Int)
    (s₁ s₂ : VertexShader) (t : Translation)
    (h : s₁.toShader.uncompile.compileToHLSL debugBuild clientVersion t =
      s₂.toShader.uncompile.compileToHLSL debugBuild clientVersion t) :
    s₁.compile debugBuild clientVersion t = s₂.compile debugBuild clientVersion t := by
  unfold VertexShader.compile VertexShader.uncompile
  simp only []
  rw [h]

theorem fragmentCompile_congr
    (stdSort : (PackedVarying → PackedVarying → Bool) → List PackedVarying →
      List PackedVarying)
    (structType : GLenum) (sortOrder : GLenum → Int)
    (debugBuild : Bool) (clientVersion : Int)
    (s₁ s₂ : FragmentShader) (t : Translation)
    (h : s₁.toShader.uncompile.compileToHLSL debugBuild clientVersion t =
      s₂.toShader.uncompile.compileToHLSL debugBuild clientVersion t) :
    s₁.compile stdSort structType sortOrder debugBuild clientVersion t =
      s₂.compile stdSort structType sortOrder debugBuild clientVersion t := by
  unfold FragmentShader.compile FragmentShader.uncompile
  simp only []
  rw [h]

theorem fragmentCompile_toShader
    (stdSort : (PackedVarying → PackedVarying → Bool) → List PackedVarying →
      List PackedVarying)
    (structType : GLenum) (sortOrder : GLenum → Int)
    (debugBuild : Bool) (clientVersion : Int) (s : FragmentShader) (t : Translation) :
    (s.compile stdSort structType sortOrder debugBuild clientVersion t).toShader =
      { (s.toShader.uncompile.compileToHLSL debugBuild clientVersion t).parseVaryings t with
        mVaryings :=
          stdSort (Shader.compareVarying structType sortOrder)
            ((s.toShader.uncompile.compileToHLSL debugBuild clientVersion t).parseVaryings
              t).mVaryings } := by
  unfold FragmentShader.compile FragmentShader.uncompile
  simp only []
  split <;> rfl

/-- When both calls are given one and the same answers of the translator (and the same
client version), compiling a shader of either stage a second time right after the first
compile leaves the whole state, translated source, info log, version, active-variable
lists, register maps and usage flags included, exactly as it was after the first compile.
Which compiler instance each call submits to is the subject of
`VertexShader.compileShared`. -/
theorem compile_twice_eq_compile_once
    (stdSort : (PackedVarying → PackedVarying → Bool) → List PackedVarying →
      List PackedVarying)
    (GL_STRUCT_ANGLEX : GLenum) (VariableSortOrder : GLenum → Int)
    (debugBuild : Bool) (clientVersion : Int)
    (vertexShader : VertexShader) (fragmentShader : FragmentShader)
    (translation : Translation) :
    (vertexShader.compile debugBuild clientVersion translation).compile debugBuild
        clientVersion translation =
      vertexShader.compile debugBuild clientVersion translation ∧
    (fragmentShader.compile stdSort GL_STRUCT_ANGLEX VariableSortOrder debugBuild
        clientVersion translation).compile stdSort GL_STRUCT_ANGLEX VariableSortOrder
        debugBuild clientVersion translation =
      fragmentShader.compile stdSort GL_STRUCT_ANGLEX VariableSortOrder debugBuild
        clientVersion translation := by
  constructor
  · apply vertexCompile_congr
    rw [vertexCompile_toShader, (parseVaryings_uncompile _ _ []).2, compileToHLSL_twice]
  · apply fragmentCompile_congr
    rw [fragmentCompile_toShader, (parseVaryings_uncompile _ _ _).1, compileToHLSL_twice]

/-! ## Compile after a failed attempt -/

theorem translated_text_ne_empty (debugBuild : Bool) (source code : String)
    (hcode : debugBuild = true ∨ code ≠ "") :
    (if debugBuild = true then debugListing source ++ code else code) ≠ "" := by
  cases debugBuild
  · rcases hcode with h | h
    · cases h
    · simpa using h
  · simpa using debugListing_append_ne_empty source code

theorem vertexCompile_of_succeeds (debugBuild : Bool) (clientVersion : Int)
    (s : VertexShader) (t : Translation) (hok : compileSucceeds clientVersion t = true)
    (hcode : debugBuild = true ∨ t.objectCode ≠ "") :
    (s.compile debugBuild clientVersion t).mInfoLog = "" ∧
    (s.compile debugBuild clientVersion t).mHlsl =
      (if debugBuild = true then debugListing s.mSource ++ t.objectCode else t.objectCode) ∧
    (s.compile debugBuild clientVersion t).mActiveUniforms = t.uniforms ∧
    (s.compile debugBuild clientVersion t).mActiveInterfaceBlocks = t.interfaceBlocks ∧
    (s.compile debugBuild clientVersion t).mVaryings =
      t.varyings.map PackedVarying.ofVarying ∧
    (s.compile debugBuild clientVersion t).mActiveAttributes = t.attributes := by
  have hne := translated_text_ne_empty debugBuild s.mSource t.objectCode hcode
  unfold VertexShader.compile VertexShader.uncompile
  simp only []
  rw [compileToHLSL_of_succeeds debugBuild clientVersion _ t hok]
  simp only [VertexShader.parseAttributes, Shader.parseVaryings, Shader.getHLSL,
    Shader.uncompile]
  rw [if_pos hne, if_pos hne]
  exact ⟨rfl, rfl, rfl, rfl, rfl, rfl⟩

theorem fragmentCompile_of_succeeds
    (stdSort : (PackedVarying → PackedVarying → Bool) → List PackedVarying →
      List PackedVarying)
    (structType : GLenum) (sortOrder : GLenum → Int)
    (debugBuild : Bool) (clientVersion : Int)
    (s : FragmentShader) (t : Translation) (hok : compileSucceeds clientVersion t = true)
    (hcode : debugBuild = true ∨ t.objectCode ≠ "") :
    (s.compile stdSort structType sortOrder debugBuild clientVersion t).mInfoLog = "" ∧
    (s.compile stdSort structType sortOrder debugBuild clientVersion t).mHlsl =
      (if debugBuild = true then debugListing s.mSource ++ t.objectCode else t.objectCode) ∧
    (s.compile stdSort structType sortOrder debugBuild clientVersion t).mActiveUniforms
      = t.uniforms ∧
    (s.compile stdSort structType sortOrder debugBuild clientVersion
      t).mActiveInterfaceBlocks = t.interfaceBlocks ∧
    (s.compile stdSort structType sortOrder debugBuild clientVersion t).mVaryings =
      stdSort (Shader.compareVarying structType sortOrder)
        (t.varyings.map PackedVarying.ofVarying) ∧
    (s.compile stdSort structType sortOrder debugBuild clientVersion
      t).mActiveOutputVariables = t.outputVariables := by
  have hne := translated_text_ne_empty debugBuild s.mSource t.objectCode hcode
  unfold FragmentShader.compile FragmentShader.uncompile
  simp only []
  rw [compileToHLSL_of_succeeds debugBuild clientVersion _ t hok]
  simp only [Shader.parseVaryings, Shader.getHLSL, Shader.uncompile]
  rw [if_pos hne, if_pos hne]
  exact ⟨rfl, rfl, rfl, rfl, rfl, rfl⟩

theorem vertexCompile_uncompile_of_failed (debugBuild : Bool) (clientVersion : Int)
    (s : VertexShader) (t : Translation) (hfailed : compileSucceeds clientVersion t = false) :
    (s.compile debugBuild clientVersion t).toShader.uncompile = s.toShader.uncompile := by
  rw [vertexCompile_toShader, (parseVaryings_uncompile _ _ []).2,
    compileToHLSL_uncompile_of_failed debugBuild clientVersion _ t hfailed]

theorem fragmentCompile_uncompile_of_failed
    (stdSort : (PackedVarying → PackedVarying → Bool) → List PackedVarying →
      List PackedVarying)
    (structType : GLenum) (sortOrder : GLenum → Int)
    (debugBuild : Bool) (clientVersion : Int)
    (s : FragmentShader) (t : Translation)
    (hfailed : compileSucceeds clientVersion t = false) :
    (s.compile stdSort structType sortOrder debugBuild clientVersion t).toShader.uncompile
      = s.toShader.uncompile := by
  rw [fragmentCompile_toShader, (parseVaryings_uncompile _ _ _).1,
    compileToHLSL_uncompile_of_failed debugBuild clientVersion _ t hfailed]

theorem setSource_uncompile (s : Shader) (count : Int) (string : List String)
    (length : List Int) :
    (s.setSource count string length).uncompile = s.uncompile.setSource count string length :=
  rfl

/-- C16 (counterexample): in a release build a vertex shader fails to compile, gets a new
source and is compiled again; the translator accepts the source, reports the attribute `a`
and returns the empty string as object code. The attribute list of the shader stays
empty. -/
theorem no_residue_after_failed_compile_counterexample :
    compileSucceeds 2 emptyCodeAttributeTranslation = true ∧
    ¬ ((VertexShader.run false (VertexShader.new 1)
          [ShaderCall.compile 2 rejectedTranslation,
           ShaderCall.setSource 1 ["void main() {}"] [],
           ShaderCall.compile 2 emptyCodeAttributeTranslation]).mInfoLog = "" ∧
        (VertexShader.run false (VertexShader.new 1)
          [ShaderCall.compile 2 rejectedTranslation,
           ShaderCall.setSource 1 ["void main() {}"] [],
           ShaderCall.compile 2 emptyCodeAttributeTranslation]).mHlsl
          = emptyCodeAttributeTranslation.objectCode ∧
        (VertexShader.run false (VertexShader.new 1)
          [ShaderCall.compile 2 rejectedTranslation,
           ShaderCall.setSource 1 ["void main() {}"] [],
           ShaderCall.compile 2 emptyCodeAttributeTranslation]).mActiveAttributes
          = emptyCodeAttributeTranslation.attributes) := by
  decide

/-- C16 (amended): a shader of either stage fails to compile, is given a new source and is
compiled again, and this time the compile succeeds with a non-empty translated text (any
`_DEBUG` build, or non-empty object code). Then the whole state is the one reached without
the failed attempt; the info log is empty, the translated source is the object code of the
second attempt (after the commented source listing in a `_DEBUG` build), and the active
uniforms, interface blocks, attributes and output variables are those the translator
reports for the second attempt, the varyings too (in the order `std::sort` leaves them on
the fragment stage). -/
theorem no_residue_after_failed_compile
    (stdSort : (PackedVarying → PackedVarying → Bool) → List PackedVarying →
      List PackedVarying)
    (GL_STRUCT_ANGLEX : GLenum) (VariableSortOrder : GLenum → Int)
    (debugBuild : Bool) (vertexShader : VertexShader) (fragmentShader : FragmentShader)
    (failedVersion : Int) (failed : Translation)
    (count : Int) (string : List String) (length : List Int)
    (clientVersion : Int) (translation : Translation)
    (hfailed : compileSucceeds failedVersion failed = false)
    (hok : compileSucceeds clientVersion translation = true)
    (hcode : debugBuild = true ∨ translation.objectCode ≠ "") :
    (VertexShader.run debugBuild vertexShader
        [ShaderCall.compile failedVersion failed, ShaderCall.setSource count string length,
          ShaderCall.compile clientVersion translation] =
      VertexShader.run debugBuild vertexShader
        [ShaderCall.setSource count string length,
          ShaderCall.compile clientVersion translation] ∧
     (VertexShader.run debugBuild vertexShader
        [ShaderCall.compile failedVersion failed, ShaderCall.setSource count string length,
          ShaderCall.compile clientVersion translation]).mInfoLog = "" ∧
     (VertexShader.run debugBuild vertexShader
        [ShaderCall.compile failedVersion failed, ShaderCall.setSource count string length,
          ShaderCall.compile clientVersion translation]).mHlsl =
        (if debugBuild = true then
          debugListing (String.join (string.take count.toNat)) ++ translation.objectCode
        else translation.objectCode) ∧
     (VertexShader.run debugBuild vertexShader
        [ShaderCall.compile failedVersion failed, ShaderCall.setSource count string length,
          ShaderCall.compile clientVersion translation]).mActiveUniforms
        = translation.uniforms ∧
     (VertexShader.run debugBuild vertexShader
        [ShaderCall.compile failedVersion failed, ShaderCall.setSource count string length,
          ShaderCall.compile clientVersion translation]).mActiveInterfaceBlocks
        = translation.interfaceBlocks ∧
     (VertexShader.run debugBuild vertexShader
        [ShaderCall.compile failedVersion failed, ShaderCall.setSource count string length,
          ShaderCall.compile clientVersion translation]).mVaryings
        = translation.varyings.map PackedVarying.ofVarying ∧
     (VertexShader.run debugBuild vertexShader
        [ShaderCall.compile failedVersion failed, ShaderCall.setSource count string length,
          ShaderCall.compile clientVersion translation]).mActiveAttributes
        = translation.attributes) ∧
    (FragmentShader.run stdSort GL_STRUCT_ANGLEX VariableSortOrder debugBuild fragmentShader
        [ShaderCall.compile failedVersion failed, ShaderCall.setSource count string length,
          ShaderCall.compile clientVersion translation] =
      FragmentShader.run stdSort GL_STRUCT_ANGLEX VariableSortOrder debugBuild fragmentShader
        [ShaderCall.setSource count string length,
          ShaderCall.compile clientVersion translation] ∧
     (FragmentShader.run stdSort GL_STRUCT_ANGLEX VariableSortOrder debugBuild fragmentShader
        [ShaderCall.compile failedVersion failed, ShaderCall.setSource count string length,
          ShaderCall.compile clientVersion translation]).mInfoLog = "" ∧
     (FragmentShader.run stdSort GL_STRUCT_ANGLEX VariableSortOrder debugBuild fragmentShader
        [ShaderCall.compile failedVersion failed, ShaderCall.setSource count string length,
          ShaderCall.compile clientVersion translation]).mHlsl =
        (if debugBuild = true then
          debugListing (String.join (string.take count.toNat)) ++ translation.objectCode
        else translation.objectCode) ∧
     (FragmentShader.run stdSort GL_STRUCT_ANGLEX VariableSortOrder debugBuild fragmentShader
        [ShaderCall.compile failedVersion failed, ShaderCall.setSource count string length,
          ShaderCall.compile clientVersion translation]).mActiveUniforms
        = translation.uniforms ∧
     (FragmentShader.run stdSort GL_STRUCT_ANGLEX VariableSortOrder debugBuild fragmentShader
        [ShaderCall.compile failedVersion failed, ShaderCall.setSource count string length,
          ShaderCall.compile clientVersion translation]).mActiveInterfaceBlocks
        = translation.interfaceBlocks ∧
     (FragmentShader.run stdSort GL_STRUCT_ANGLEX VariableSortOrder debugBuild fragmentShader
        [ShaderCall.compile failedVersion failed, ShaderCall.setSource count string length,
          ShaderCall.compile clientVersion translation]).mVaryings
        = stdSort (Shader.compareVarying GL_STRUCT_ANGLEX VariableSortOrder)
            (translation.varyings.map PackedVarying.ofVarying) ∧
     (FragmentShader.run stdSort GL_STRUCT_ANGLEX VariableSortOrder debugBuild fragmentShader
        [ShaderCall.compile failedVersion failed, ShaderCall.setSource count string length,
          ShaderCall.compile clientVersion translation]).mActiveOutputVariables
        = translation.outputVariables) := by
  have hv : VertexShader.run debugBuild vertexShader
        [ShaderCall.compile failedVersion failed, ShaderCall.setSource count string length,
          ShaderCall.compile clientVersion translation] =
      VertexShader.run debugBuild vertexShader
        [ShaderCall.setSource count string length,
          ShaderCall.compile clientVersion translation] := by
    simp only [VertexShader.run, List.foldl_cons, List.foldl_nil, VertexShader.call]
    apply vertexCompile_congr
    simp only [setSource_uncompile]
    rw [vertexCompile_uncompile_of_failed debugBuild failedVersion vertexShader failed hfailed]
  have hf : FragmentShader.run stdSort GL_STRUCT_ANGLEX VariableSortOrder debugBuild
        fragmentShader
        [ShaderCall.compile failedVersion failed, ShaderCall.setSource count string length,
          ShaderCall.compile clientVersion translation] =
      FragmentShader.run stdSort GL_STRUCT_ANGLEX VariableSortOrder debugBuild fragmentShader
        [ShaderCall.setSource count string length,
          ShaderCall.compile clientVersion translation] := by
    simp only [FragmentShader.run, List.foldl_cons, List.foldl_nil, FragmentShader.call]
    apply fragmentCompile_congr
    simp only [setSource_uncompile]
    rw [fragmentCompile_uncompile_of_failed stdSort GL_STRUCT_ANGLEX VariableSortOrder
      debugBuild failedVersion fragmentShader failed hfailed]
  refine ⟨⟨hv, ?_⟩, ⟨hf, ?_⟩⟩
  · rw [hv]
    simp only [VertexShader.run, List.foldl_cons, List.foldl_nil, VertexShader.call]
    exact vertexCompile_of_succeeds debugBuild clientVersion _ translation hok hcode
  · rw [hf]
    simp only [FragmentShader.run, List.foldl_cons, List.foldl_nil, FragmentShader.call]
    exact fragmentCompile_of_succeeds stdSort GL_STRUCT_ANGLEX VariableSortOrder debugBuild
      clientVersion _ translation hok hcode

/-- C16 (amended), on a vertex shader: a rejected compile, a new source, then a compile
that reports the uniform `u`, the interface block `B` and the attribute `a`. -/
theorem no_residue_after_failed_compile_witness :
    (VertexShader.run false (VertexShader.new 1)
      [ShaderCall.compile 2 rejectedTranslation,
       ShaderCall.setSource 1 ["void main() {}"] [],
       ShaderCall.compile 2 uniformTranslation]).mInfoLog = "" ∧
    (VertexShader.run false (VertexShader.new 1)
      [ShaderCall.compile 2 rejectedTranslation,
       ShaderCall.setSource 1 ["void main() {}"] [],
       ShaderCall.compile 2 uniformTranslation]).mActiveAttributes
      = [{ name := "a", type := GL_FLOAT_VEC4, arraySize := 1 }] :=
  have h := (no_residue_after_failed_compile insertionSort sampleStructType sampleSortOrder
    false (VertexShader.new 1) (FragmentShader.new 2) 2 rejectedTranslation
    1 ["void main() {}"] [] 2 uniformTranslation (by decide) (by decide)
    (Or.inr (by decide))).1
  ⟨h.2.1, h.2.2.2.2.2.2⟩

/-! ## Shared compiler instances -/

theorem compileShared_handle (library : TranslatorLibrary)
    (translator : Option Nat → Translation) (debugBuild : Bool) (clientVersion : Int)
    (compilers : Compilers) (s : VertexShader) :
    (VertexShader.compileShared library translator debugBuild clientVersion compilers s).1 =
      Shader.initializeCompiler library compilers ∧
    (VertexShader.compileShared library translator debugBuild clientVersion compilers s).2.1 =
      compilers.mVertexCompiler :=
  ⟨rfl, rfl⟩

theorem compileShared_eq_compile_of_constructed (library : TranslatorLibrary)
    (translator : Option Nat → Translation) (debugBuild : Bool) (clientVersion : Int)
    (compilers : Compilers) (s : VertexShader)
    (hconstructed : compilers.mFragmentCompiler ≠ none) :
    VertexShader.compileShared library translator debugBuild clientVersion compilers s =
      (compilers, compilers.mVertexCompiler,
        s.compile debugBuild clientVersion (translator compilers.mVertexCompiler)) := by
  have hinit : Shader.initializeCompiler library compilers = compilers := by
    unfold Shader.initializeCompiler
    rw [if_neg hconstructed]
  unfold VertexShader.compileShared VertexShader.compile
  simp only [hinit]

/-- C17 (evaluation at the failing input): the shared compilers exist (handles 5 and 6),
`releaseCompiler` makes both absent, and an existing shader is compiled. The compile
constructs both instances again (handles 11 and 12), but the handle it passes on to
`ShCompile` is the `NULL` it read before the construction, for the vertex stage and for the
fragment stage; with a translator that fails on `NULL` the compile fails. -/
theorem compile_after_releaseCompiler_uses_null_handle :
    Shader.releaseCompiler { mFragmentCompiler := some 5, mVertexCompiler := some 6 } =
      { mFragmentCompiler := none, mVertexCompiler := none } ∧
    (VertexShader.compileShared sampleLibrary sampleTranslator false 2
      (Shader.releaseCompiler { mFragmentCompiler := some 5, mVertexCompiler := some 6 })
      (VertexShader.new 1)).1 = { mFragmentCompiler := some 11, mVertexCompiler := some 12 } ∧
    (VertexShader.compileShared sampleLibrary sampleTranslator false 2
      (Shader.releaseCompiler { mFragmentCompiler := some 5, mVertexCompiler := some 6 })
      (VertexShader.new 1)).2.1 = none ∧
    (VertexShader.compileShared sampleLibrary sampleTranslator false 2
      (Shader.releaseCompiler { mFragmentCompiler := some 5, mVertexCompiler := some 6 })
      (VertexShader.new 1)).2.2.isCompiled = false ∧
    (FragmentShader.compileShared sampleLibrary sampleTranslator insertionSort
      sampleStructType sampleSortOrder false 2
      (Shader.releaseCompiler { mFragmentCompiler := some 5, mVertexCompiler := some 6 })
      (FragmentShader.new 2)).1 = { mFragmentCompiler := some 11, mVertexCompiler := some 12 } ∧
    (FragmentShader.compileShared sampleLibrary sampleTranslator insertionSort
      sampleStructType sampleSortOrder false 2
      (Shader.releaseCompiler { mFragmentCompiler := some 5, mVertexCompiler := some 6 })
      (FragmentShader.new 2)).2.1 = none ∧
    (FragmentShader.compileShared sampleLibrary sampleTranslator insertionSort
      sampleStructType sampleSortOrder false 2
      (Shader.releaseCompiler { mFragmentCompiler := some 5, mVertexCompiler := some 6 })
      (FragmentShader.new 2)).2.2.isCompiled = false := by
  decide

/-! ## The packing comparator as a strict weak order -/

theorem compareVarying_eq_true_iff (structType : GLenum) (sortOrder : GLenum → Int)
    (x y : PackedVarying) :
    Shader.compareVarying structType sortOrder x y = true ↔
      (x.type = y.type ∧ y.arraySize < x.arraySize) ∨
      (x.type ≠ y.type ∧ x.type ≠ structType ∧
        (y.type = structType ∨ sortOrder x.type ≤ sortOrder y.type)) := by
  unfold Shader.compareVarying
  by_cases ht : x.type = y.type
  · simp [ht]
  · by_cases hx : x.type = structType
    · simp [ht, hx]
    · by_cases hy : y.type = structType
      · simp [ht, hx, hy]
      · simp [ht, hx, hy]

theorem compareVarying_trans (structType : GLenum) (sortOrder : GLenum → Int)
    (hdistinct : ∀ a b, a ≠ structType → b ≠ structType → sortOrder a = sortOrder b → a = b)
    (x y z : PackedVarying)
    (hxy : Shader.compareVarying structType sortOrder x y = true)
    (hyz : Shader.compareVarying structType sortOrder y z = true) :
    Shader.compareVarying structType sortOrder x z = true := by
  rw [compareVarying_eq_true_iff] at hxy hyz ⊢
  rcases hxy with ⟨hT, hS⟩ | ⟨hT, hx, hy⟩
  · rcases hyz with ⟨hT', hS'⟩ | ⟨hT', hy', hz⟩
    · exact Or.inl ⟨hT.trans hT', by omega⟩
    · exact Or.inr ⟨fun h => hT' (hT ▸ h), fun h => hy' (hT ▸ h), by rw [hT]; exact hz⟩
  · rcases hyz with ⟨hT', hS'⟩ | ⟨hT', hy', hz⟩
    · exact Or.inr ⟨fun h => hT (h.trans hT'.symm), hx, by rw [← hT']; exact hy⟩
    · have hrank : sortOrder x.type ≤ sortOrder y.type := by
        rcases hy with h | h
        · exact absurd h hy'
        · exact h
      have hxz : x.type ≠ z.type := by
        intro h
        rcases hz with hz | hz
        · exact hx (h.trans hz)
        · rw [← h] at hz
          exact hT (hdistinct _ _ hx hy' (le_antisymm hrank hz))
      refine Or.inr ⟨hxz, hx, ?_⟩
      rcases hz with hz | hz
      · exact Or.inl hz
      · exact Or.inr (le_trans hrank hz)

theorem compareVarying_incomparable_iff (structType : GLenum) (sortOrder : GLenum → Int)
    (x y : PackedVarying) :
    (Shader.compareVarying structType sortOrder x y = false ∧
      Shader.compareVarying structType sortOrder y x = false) ↔
      (x.type = y.type ∧ x.arraySize = y.arraySize) := by
  rw [← Bool.not_eq_true, ← Bool.not_eq_true, compareVarying_eq_true_iff,
    compareVarying_eq_true_iff]
  constructor
  · rintro ⟨hxy, hyx⟩
    by_cases ht : x.type = y.type
    · refine ⟨ht, ?_⟩
      have h1 : ¬ y.arraySize < x.arraySize := fun h => hxy (Or.inl ⟨ht, h⟩)
      have h2 : ¬ x.arraySize < y.arraySize := fun h => hyx (Or.inl ⟨ht.symm, h⟩)
      omega
    · exfalso
      have ht2 : y.type ≠ x.type := fun h => ht h.symm
      by_cases hx : x.type = structType
      · have hy : y.type ≠ structType := fun h => ht (hx.trans h.symm)
        exact hyx (Or.inr ⟨ht2, hy, Or.inl hx⟩)
      · by_cases hy : y.type = structType
        · exact hxy (Or.inr ⟨ht, hx, Or.inl hy⟩)
        · rcases le_total (sortOrder x.type) (sortOrder y.type) with h | h
          · exact hxy (Or.inr ⟨ht, hx, Or.inr h⟩)
          · exact hyx (Or.inr ⟨ht2, hy, Or.inr h⟩)
  · rintro ⟨ht, hs⟩
    constructor
    · rintro (⟨_, h⟩ | ⟨h, _⟩)
      · omega
      · exact h ht
    · rintro (⟨_, h⟩ | ⟨h, _⟩)
      · omega
      · exact h ht.symm

theorem compareVarying_incomparable_trans (structType : GLenum) (sortOrder : GLenum → Int)
    (x y z : PackedVarying)
    (hxy : Shader.compareVarying structType sortOrder x y = false ∧
      Shader.compareVarying structType sortOrder y x = false)
    (hyz : Shader.compareVarying structType sortOrder y z = false ∧
      Shader.compareVarying structType sortOrder z y = false) :
    Shader.compareVarying structType sortOrder x z = false ∧
      Shader.compareVarying structType sortOrder z x = false := by
  rw [compareVarying_incomparable_iff] at hxy hyz ⊢
  exact ⟨hxy.1.trans hyz.1, hxy.2.trans hyz.2⟩

theorem compareVarying_isStrictWeakOrder (structType : GLenum) (sortOrder : GLenum → Int)
    (hdistinct : ∀ a b, a ≠ structType → b ≠ structType → sortOrder a = sortOrder b → a = b) :
    IsStrictWeakOrder PackedVarying
      (fun x y => Shader.compareVarying structType sortOrder x y = true) :=
  { irrefl := fun x h => by
      rw [compareVarying_irrefl] at h
      cases h
    trans := fun x y z hxy hyz => compareVarying_trans structType sortOrder hdistinct x y z hxy hyz
    incomp_trans := fun x y z hxy hyz => by
      simp only [Bool.not_eq_true] at hxy hyz ⊢
      exact compareVarying_incomparable_trans structType sortOrder x y z hxy hyz }

theorem compareVarying_sorted_arrangement_exists (structType : GLenum)
    (sortOrder : GLenum → Int)
    (hdistinct : ∀ a b, a ≠ structType → b ≠ structType → sortOrder a = sortOrder b → a = b)
    (range : List PackedVarying) :
    ∃ sorted, StdSortPostcondition (Shader.compareVarying structType sortOrder) range sorted := by
  have hasymm : ∀ x y, Shader.compareVarying structType sortOrder x y = true →
      Shader.compareVarying structType sortOrder y x = false := fun x y h =>
    compareVarying_asymm_of_ranks_ne structType sortOrder x y
      (fun ht hx hy he => ht (hdistinct _ _ hx hy he)) h
  haveI : IsTotal PackedVarying
      (fun a b => Shader.compareVarying structType sortOrder b a = false) :=
    ⟨fun a b => by
      cases h : Shader.compareVarying structType sortOrder b a
      · exact Or.inl rfl
      · exact Or.inr (hasymm b a h)⟩
  haveI : IsTrans PackedVarying
      (fun a b => Shader.compareVarying structType sortOrder b a = false) :=
    ⟨fun a b c hba hcb => by
      show Shader.compareVarying structType sortOrder c a = false
      by_contra hca
      rw [Bool.not_eq_false] at hca
      have hab : Shader.compareVarying structType sortOrder a b = false := by
        by_contra h
        rw [Bool.not_eq_false] at h
        have := compareVarying_trans structType sortOrder hdistinct c a b hca h
        rw [hcb] at this
        cases this
      have hbc : Shader.compareVarying structType sortOrder b c = false := by
        by_contra h
        rw [Bool.not_eq_false] at h
        have := compareVarying_trans structType sortOrder hdistinct b c a h hca
        rw [hba] at this
        cases this
      have hinc := compareVarying_incomparable_trans structType sortOrder a b c
        ⟨hab, hba⟩ ⟨hbc, hcb⟩
      rw [hinc.2] at hca
      cases hca⟩
  exact ⟨List.insertionSort
      (fun a b => Shader.compareVarying structType sortOrder b a = false) range,
    List.perm_insertionSort _ range, List.sorted_insertionSort _ range⟩

/-- C21: when the precedence table gives distinct ranks to distinct types (ranks are
integers, so the table is a total ordering; the rank of the struct type is never read),
`compareVarying` is transitive and its incomparability relation is transitive, two varyings
are incomparable exactly when they have the same type and the same array size, the
comparator is a strict weak order, and every range has an arrangement that is sorted by
it, as a sort has to produce. -/
theorem compareVarying_strict_weak_order (GL_STRUCT_ANGLEX : GLenum)
    (VariableSortOrder : GLenum → Int)
    (hdistinct : ∀ a b, a ≠ GL_STRUCT_ANGLEX → b ≠ GL_STRUCT_ANGLEX →
      VariableSortOrder a = VariableSortOrder b → a = b) :
    (∀ x y z, Shader.compareVarying GL_STRUCT_ANGLEX VariableSortOrder x y = true →
      Shader.compareVarying GL_STRUCT_ANGLEX VariableSortOrder y z = true →
      Shader.compareVarying GL_STRUCT_ANGLEX VariableSortOrder x z = true) ∧
    (∀ x y z,
      (Shader.compareVarying GL_STRUCT_ANGLEX VariableSortOrder x y = false ∧
        Shader.compareVarying GL_STRUCT_ANGLEX VariableSortOrder y x = false) →
      (Shader.compareVarying GL_STRUCT_ANGLEX VariableSortOrder y z = false ∧
        Shader.compareVarying GL_STRUCT_ANGLEX VariableSortOrder z y = false) →
      (Shader.compareVarying GL_STRUCT_ANGLEX VariableSortOrder x z = false ∧
        Shader.compareVarying GL_STRUCT_ANGLEX VariableSortOrder z x = false)) ∧
    (∀ x y,
      (Shader.compareVarying GL_STRUCT_ANGLEX VariableSortOrder x y = false ∧
        Shader.compareVarying GL_STRUCT_ANGLEX VariableSortOrder y x = false) ↔
      (x.type = y.type ∧ x.arraySize = y.arraySize)) ∧
    IsStrictWeakOrder PackedVarying
      (fun x y => Shader.compareVarying GL_STRUCT_ANGLEX VariableSortOrder x y = true) ∧
    (∀ range : List PackedVarying, ∃ sorted,
      StdSortPostcondition (Shader.compareVarying GL_STRUCT_ANGLEX VariableSortOrder)
        range sorted) :=
  ⟨compareVarying_trans GL_STRUCT_ANGLEX VariableSortOrder hdistinct,
   compareVarying_incomparable_trans GL_STRUCT_ANGLEX VariableSortOrder,
   compareVarying_incomparable_iff GL_STRUCT_ANGLEX VariableSortOrder,
   compareVarying_isStrictWeakOrder GL_STRUCT_ANGLEX VariableSortOrder hdistinct,
   compareVarying_sorted_arrangement_exists GL_STRUCT_ANGLEX VariableSortOrder hdistinct⟩

/-- C21, with a table that ranks every type by its enumerant: from `(float, 2)` before
`(float, 1)` and `(float, 1)` before `(vec4, 1)` follows `(float, 2)` before `(vec4, 1)`. -/
theorem compareVarying_strict_weak_order_witness :
    Shader.compareVarying sampleStructType distinctSortOrder
      { name := "x", type := GL_FLOAT, arraySize := 2 }
      { name := "z", type := GL_FLOAT_VEC4, arraySize := 1 } = true :=
  (compareVarying_strict_weak_order sampleStructType distinctSortOrder
    (fun a b _ _ h => by
      simp only [distinctSortOrder] at h
      exact_mod_cast h)).1
    { name := "x", type := GL_FLOAT, arraySize := 2 }
    { name := "y", type := GL_FLOAT, arraySize := 1 }
    { name := "z", type := GL_FLOAT_VEC4, arraySize := 1 }
    (by decide) (by decide)

/-! ## Semantic indices of different attributes -/

theorem takeWhile_name_ne_at (pre rest : List ShaderVariable) (a : ShaderVariable)
    (hpre : ∀ p ∈ pre, p.name ≠ a.name) :
    (pre ++ a :: rest).takeWhile (fun v => decide (v.name ≠ a.name)) = pre := by
  rw [List.takeWhile_append_of_pos (fun p hp => by simpa using hpre p hp)]
  simp

theorem takeWhile_name_ne_after (pre rest : List ShaderVariable) (a b : ShaderVariable)
    (hpre : ∀ p ∈ pre, p.name ≠ b.name) (hab : a.name ≠ b.name) :
    (pre ++ a :: rest).takeWhile (fun v => decide (v.name ≠ b.name)) =
      pre ++ a :: rest.takeWhile (fun v => decide (v.name ≠ b.name)) := by
  rw [List.takeWhile_append_of_pos (fun p hp => by simpa using hpre p hp)]
  simp [List.takeWhile_cons, hab]

theorem sum_takeWhile_le (count : GLenum → Int) (p : ShaderVariable → Bool)
    (attributes : List ShaderVariable) (h : ∀ a ∈ attributes, 0 ≤ count a.type) :
    ((attributes.takeWhile p).map (fun a => count a.type)).sum ≤
      (attributes.map (fun a => count a.type)).sum := by
  apply List.Sublist.sum_le_sum ((List.takeWhile_sublist p).map _)
  intro x hx
  obtain ⟨a, ha, rfl⟩ := List.mem_map.1 hx
  exact h a ha

theorem registers_before_pairwise (count : GLenum → Int) :
    ∀ (rest pre : List ShaderVariable),
      (pre ++ rest).Pairwise (fun a b => a.name ≠ b.name) →
      (∀ a ∈ pre ++ rest, 0 ≤ count a.type) →
      rest.Pairwise (fun a b =>
        (((pre ++ rest).takeWhile (fun v => decide (v.name ≠ a.name))).map
          (fun v => count v.type)).sum + count a.type ≤
        (((pre ++ rest).takeWhile (fun v => decide (v.name ≠ b.name))).map
          (fun v => count v.type)).sum) := by
  intro rest
  induction rest with
  | nil => intro pre _ _; exact List.Pairwise.nil
  | cons a rest ih =>
    intro pre hnames hwidth
    have hsplit := List.pairwise_append.1 hnames
    have hpre_a : ∀ p ∈ pre, p.name ≠ a.name :=
      fun p hp => hsplit.2.2 p hp a (List.mem_cons_self _ _)
    have ha_rest : ∀ b ∈ rest, a.name ≠ b.name := (List.pairwise_cons.1 hsplit.2.1).1
    refine List.pairwise_cons.2 ⟨?_, ?_⟩
    · intro b hb
      have hpre_b : ∀ p ∈ pre, p.name ≠ b.name :=
        fun p hp => hsplit.2.2 p hp b (List.mem_cons_of_mem _ hb)
      rw [takeWhile_name_ne_at pre rest a hpre_a,
        takeWhile_name_ne_after pre rest a b hpre_b (ha_rest b hb)]
      have hnonneg := sum_takeWhile_nonneg count (fun v => decide (v.name ≠ b.name)) rest
        (fun v hv => hwidth v (List.mem_append_right _ (List.mem_cons_of_mem _ hv)))
      simp only [List.map_append, List.map_cons, List.sum_append, List.sum_cons]
      linarith
    · have hassoc : pre ++ a :: rest = (pre ++ [a]) ++ rest := by simp
      rw [hassoc] at hnames hwidth ⊢
      exact ih (pre ++ [a]) hnames hwidth

theorem getSemanticIndex_eq_registers_before (count : GLenum → Int) (self : VertexShader)
    (hwidth : ∀ a ∈ self.mActiveAttributes, 0 ≤ count a.type)
    (hfit : (self.mActiveAttributes.map (fun a => count a.type)).sum < 2 ^ 31)
    (a : ShaderVariable) (ha : a ∈ self.mActiveAttributes) (hname : a.name ≠ "") :
    self.getSemanticIndex count a.name =
      ((self.mActiveAttributes.takeWhile (fun v => decide (v.name ≠ a.name))).map
        (fun v => count v.type)).sum := by
  have hloop := getSemanticIndexLoop_found count a.name self.mActiveAttributes 0
    ⟨a, ha, rfl⟩
  have hzero : toInt32 0 = 0 := by decide
  have hlo := sum_takeWhile_nonneg count (fun v => decide (v.name ≠ a.name))
    self.mActiveAttributes hwidth
  have hhi := sum_takeWhile_le count (fun v => decide (v.name ≠ a.name))
    self.mActiveAttributes hwidth
  rw [hzero, zero_add, toInt32_of_fits _ (by linarith) (by linarith)] at hloop
  simp only [VertexShader.getSemanticIndex, ne_eq, hname, not_false_eq_true, if_true]
  exact hloop

/-- C22: when every active attribute has a register width of at least 1, the active
attributes have pairwise distinct non-empty names and the widths add up to less than
`2 ^ 31` (no `int` overflow), then along the active-attribute list `getSemanticIndex` is
strictly increasing, each attribute's index plus its width is at most the index of every
later attribute, and so two different attributes never get the same index and their
register ranges `[index, index + width)` have no register in common. -/
theorem getSemanticIndex_strictly_increasing (VariableRegisterCount : GLenum → Int)
    (self : VertexShader)
    (hwidth : ∀ a ∈ self.mActiveAttributes, 1 ≤ VariableRegisterCount a.type)
    (hdistinct : (self.mActiveAttributes.map (fun a => a.name)).Nodup)
    (hnonempty : ∀ a ∈ self.mActiveAttributes, a.name ≠ "")
    (hfit : (self.mActiveAttributes.map (fun a => VariableRegisterCount a.type)).sum
      < 2 ^ 31) :
    self.mActiveAttributes.Pairwise (fun a b =>
      self.getSemanticIndex VariableRegisterCount a.name <
        self.getSemanticIndex VariableRegisterCount b.name) ∧
    self.mActiveAttributes.Pairwise (fun a b =>
      self.getSemanticIndex VariableRegisterCount a.name + VariableRegisterCount a.type ≤
        self.getSemanticIndex VariableRegisterCount b.name) ∧
    (∀ a ∈ self.mActiveAttributes, ∀ b ∈ self.mActiveAttributes, a ≠ b →
      self.getSemanticIndex VariableRegisterCount a.name ≠
        self.getSemanticIndex VariableRegisterCount b.name ∧
      ∀ register : Int,
        ¬ ((self.getSemanticIndex VariableRegisterCount a.name ≤ register ∧
            register < self.getSemanticIndex VariableRegisterCount a.name +
              VariableRegisterCount a.type) ∧
          (self.getSemanticIndex VariableRegisterCount b.name ≤ register ∧
            register < self.getSemanticIndex VariableRegisterCount b.name +
              VariableRegisterCount b.type))) := by
  have hnonneg : ∀ a ∈ self.mActiveAttributes, 0 ≤ VariableRegisterCount a.type :=
    fun a ha => le_trans (by norm_num) (hwidth a ha)
  have hnames : self.mActiveAttributes.Pairwise (fun a b => a.name ≠ b.name) :=
    List.pairwise_map.1 hdistinct
  have hsums := registers_before_pairwise VariableRegisterCount self.mActiveAttributes []
    (by simpa using hnames) (by simpa using hnonneg)
  simp only [List.nil_append] at hsums
  have hadd : self.mActiveAttributes.Pairwise (fun a b =>
      self.getSemanticIndex VariableRegisterCount a.name + VariableRegisterCount a.type ≤
        self.getSemanticIndex VariableRegisterCount b.name) := by
    refine List.Pairwise.imp_of_mem ?_ hsums
    intro a b ha hb h
    rw [getSemanticIndex_eq_registers_before VariableRegisterCount self hnonneg hfit a ha
        (hnonempty a ha),
      getSemanticIndex_eq_registers_before VariableRegisterCount self hnonneg hfit b hb
        (hnonempty b hb)]
    exact h
  have hlt : self.mActiveAttributes.Pairwise (fun a b =>
      self.getSemanticIndex VariableRegisterCount a.name <
        self.getSemanticIndex VariableRegisterCount b.name) := by
    refine List.Pairwise.imp_of_mem ?_ hadd
    intro a b ha _ h
    have := hwidth a ha
    linarith
  refine ⟨hlt, hadd, ?_⟩
  intro a ha b hb hne
  have hsym : self.mActiveAttributes.Pairwise (fun a b =>
      self.getSemanticIndex VariableRegisterCount a.name + VariableRegisterCount a.type ≤
          self.getSemanticIndex VariableRegisterCount b.name ∨
        self.getSemanticIndex VariableRegisterCount b.name + VariableRegisterCount b.type ≤
          self.getSemanticIndex VariableRegisterCount a.name) :=
    hadd.imp (fun h => Or.inl h)
  have hab := hsym.forall (fun x y h => h.symm) ha hb hne
  have hwa := hwidth a ha
  have hwb := hwidth b hb
  constructor
  · intro heq
    rcases hab with h | h <;> linarith
  · rintro register ⟨⟨h1, h2⟩, ⟨h3, h4⟩⟩
    rcases hab with h | h <;> linarith

/-- C22, on the attributes `a : vec4`, `b : mat4`, `c : float`, `d : vec4` with widths 1,
4, 1, 1: the indices 0, 1, 5, 6 increase along the list. -/
theorem getSemanticIndex_strictly_increasing_witness :
    fourAttributeShader.mActiveAttributes.Pairwise (fun a b =>
      fourAttributeShader.getSemanticIndex sampleRegisterCount a.name <
        fourAttributeShader.getSemanticIndex sampleRegisterCount b.name) ∧
    fourAttributeShader.getSemanticIndex sampleRegisterCount "d" = 6 :=
  ⟨(getSemanticIndex_strictly_increasing sampleRegisterCount fourAttributeShader
      (by decide) (by decide) (by decide) (by decide)).1,
    by decide⟩

/-! ## Repeated compilation and the shared compilers -/

theorem fragmentCompileShared_eq_compile_of_constructed (library : TranslatorLibrary)
    (translator : Option Nat → Translation)
    (stdSort : (PackedVarying → PackedVarying → Bool) → List PackedVarying →
      List PackedVarying)
    (structType : GLenum) (sortOrder : GLenum → Int)
    (debugBuild : Bool) (clientVersion : Int)
    (compilers : Compilers) (s : FragmentShader)
    (hconstructed : compilers.mFragmentCompiler ≠ none) :
    FragmentShader.compileShared library translator stdSort structType sortOrder debugBuild
        clientVersion compilers s =
      (compilers, compilers.mFragmentCompiler,
        s.compile stdSort structType sortOrder debugBuild clientVersion
          (translator compilers.mFragmentCompiler)) := by
  have hinit : Shader.initializeCompiler library compilers = compilers := by
    unfold Shader.initializeCompiler
    rw [if_neg hconstructed]
  unfold FragmentShader.compileShared FragmentShader.compile
  simp only [hinit]
  split <;> rfl

theorem compileSharedTwice_of_constructed (library : TranslatorLibrary)
    (translator : Option Nat → Translation)
    (stdSort : (PackedVarying → PackedVarying → Bool) → List PackedVarying →
      List PackedVarying)
    (structType : GLenum) (sortOrder : GLenum → Int)
    (debugBuild : Bool) (clientVersion : Int) (compilers : Compilers)
    (vertexShader : VertexShader) (fragmentShader : FragmentShader)
    (hconstructed : compilers.mFragmentCompiler ≠ none) :
    (VertexShader.compileSharedTwice library translator debugBuild clientVersion compilers
        vertexShader).2 =
      (VertexShader.compileSharedTwice library translator debugBuild clientVersion compilers
        vertexShader).1 ∧
    (FragmentShader.compileSharedTwice library translator stdSort structType sortOrder
        debugBuild clientVersion compilers fragmentShader).2 =
      (FragmentShader.compileSharedTwice library translator stdSort structType sortOrder
        debugBuild clientVersion compilers fragmentShader).1 := by
  have h := compile_twice_eq_compile_once stdSort structType sortOrder debugBuild
    clientVersion
  constructor
  · unfold VertexShader.compileSharedTwice
    rw [compileShared_eq_compile_of_constructed library translator debugBuild clientVersion
      compilers vertexShader hconstructed]
    simp only []
    rw [compileShared_eq_compile_of_constructed library translator debugBuild clientVersion
      compilers _ hconstructed]
    exact (h vertexShader fragmentShader (translator compilers.mVertexCompiler)).1
  · unfold FragmentShader.compileSharedTwice
    rw [fragmentCompileShared_eq_compile_of_constructed library translator stdSort structType
      sortOrder debugBuild clientVersion compilers fragmentShader hconstructed]
    simp only []
    rw [fragmentCompileShared_eq_compile_of_constructed library translator stdSort structType
      sortOrder debugBuild clientVersion compilers _ hconstructed]
    exact (h vertexShader fragmentShader (translator compilers.mFragmentCompiler)).2

/-- C15 (evaluation at the failing input): the shared compilers exist (handles 5 and 6),
`releaseCompiler` is called, and an existing shader is compiled twice in a row with no
`setSource` in between. The translator is deterministic: it fails on the `NULL` handle and
gives the same successful answers on every other handle. The first compile passes on the
`NULL` it read before the construction and fails, the second passes on the new handle and
succeeds, so translated source and info log after the second compile differ from those
after the first, on the vertex stage and on the fragment stage. -/
theorem compile_twice_after_releaseCompiler_differs :
    ((VertexShader.compileSharedTwice sampleLibrary sampleTranslator false 2
        (Shader.releaseCompiler { mFragmentCompiler := some 5, mVertexCompiler := some 6 })
        (VertexShader.new 1)).1.isCompiled = false ∧
      (VertexShader.compileSharedTwice sampleLibrary sampleTranslator false 2
        (Shader.releaseCompiler { mFragmentCompiler := some 5, mVertexCompiler := some 6 })
        (VertexShader.new 1)).1.mInfoLog = "ERROR: 0:1: syntax error" ∧
      (VertexShader.compileSharedTwice sampleLibrary sampleTranslator false 2
        (Shader.releaseCompiler { mFragmentCompiler := some 5, mVertexCompiler := some 6 })
        (VertexShader.new 1)).2.isCompiled = true ∧
      (VertexShader.compileSharedTwice sampleLibrary sampleTranslator false 2
        (Shader.releaseCompiler { mFragmentCompiler := some 5, mVertexCompiler := some 6 })
        (VertexShader.new 1)).2.mInfoLog = "" ∧
      (VertexShader.compileSharedTwice sampleLibrary sampleTranslator false 2
        (Shader.releaseCompiler { mFragmentCompiler := some 5, mVertexCompiler := some 6 })
        (VertexShader.new 1)).2.mHlsl ≠
        (VertexShader.compileSharedTwice sampleLibrary sampleTranslator false 2
          (Shader.releaseCompiler { mFragmentCompiler := some 5, mVertexCompiler := some 6 })
          (VertexShader.new 1)).1.mHlsl) ∧
    ((FragmentShader.compileSharedTwice sampleLibrary sampleTranslator insertionSort
        sampleStructType sampleSortOrder false 2
        (Shader.releaseCompiler { mFragmentCompiler := some 5, mVertexCompiler := some 6 })
        (FragmentShader.new 2)).1.isCompiled = false ∧
      (FragmentShader.compileSharedTwice sampleLibrary sampleTranslator insertionSort
        sampleStructType sampleSortOrder false 2
        (Shader.releaseCompiler { mFragmentCompiler := some 5, mVertexCompiler := some 6 })
        (FragmentShader.new 2)).2.isCompiled = true ∧
      (FragmentShader.compileSharedTwice sampleLibrary sampleTranslator insertionSort
        sampleStructType sampleSortOrder false 2
        (Shader.releaseCompiler { mFragmentCompiler := some 5, mVertexCompiler := some 6 })
        (FragmentShader.new 2)).2.mVaryings ≠
        (FragmentShader.compileSharedTwice sampleLibrary sampleTranslator insertionSort
          sampleStructType sampleSortOrder false 2
          (Shader.releaseCompiler { mFragmentCompiler := some 5, mVertexCompiler := some 6 })
          (FragmentShader.new 2)).1.mVaryings) := by
  decide

end gl
